import Mathlib

/-!
CAT protocol core of the uBITX v6 firmware (`ubitx_cat.cpp`)

A shallow embedding of the FT-817 style CAT command handling: the BCD
frequency codec, the command dispatcher `processCatCommand`, the legacy
register table `catReadEEPRom` and the byte framer `checkCAT`.

Conventions of the embedding

* The target is the 8-bit AVR of the Arduino Nano: `uint8_t` values are
  naturals reduced `% 256`, `uint16_t`/`unsigned int` arithmetic is reduced
  `% 65536`, `unsigned long`/`uint32_t` arithmetic is reduced `% 2^32`.
* A `uint8_t*` buffer is a `List Nat`.  Loads and stores are checked: an index
  outside the buffer makes the operation (and the function using it) return
  `none`.  A division by zero returns `none` as well.
* Writes to the serial port and calls of collaborators that live outside this
  translation unit are recorded in the `World`.
-/

namespace UbitxCat

/-! ## Constants and enumerations -/

/-- Size of one FT-817 message: `FT817_MESSAGE_SIZE`. -/
def FT817_MESSAGE_SIZE : Nat := 5

/-- Index of parameter byte 1: `CatDataIndex_e::P1`. -/
def P1 : Nat := 0
/-- Index of parameter byte 2: `CatDataIndex_e::P2`. -/
def P2 : Nat := 1
/-- Index of parameter byte 3: `CatDataIndex_e::P3`. -/
def P3 : Nat := 2
/-- Index of parameter byte 4: `CatDataIndex_e::P4`. -/
def P4 : Nat := 3
/-- Index of the command byte: `CatDataIndex_e::CMD`. -/
def CMD : Nat := 4

/-- Receive timeout in milliseconds: `CAT_RECEIVE_TIMEOUT_MS`. -/
def CAT_RECEIVE_TIMEOUT_MS : Nat := 500

/-- Acknowledge byte: `ACK`. -/
def ACK : Nat := 0

namespace Ft817Command_e
def OffBit : Nat := 0x80
def LockOn : Nat := 0x00
def LockOff : Nat := LockOn ||| OffBit
def PttOn : Nat := 0x08
def PttOff : Nat := PttOn ||| OffBit
def SetFrequency : Nat := 0x01
def OperatingMode : Nat := 0x07
def ClarOn : Nat := 0x05
def ClarOff : Nat := ClarOn ||| OffBit
def ClarFrequency : Nat := 0xF5
def VfoToggle : Nat := 0x81
def SplitOn : Nat := 0x02
def SplitOff : Nat := SplitOn ||| OffBit
def RepeaterMode : Nat := 0x09
def RepeaterOffset : Nat := 0xF9
def CtcssDcsMode : Nat := 0x0A
def CtcssTone : Nat := 0x0B
def DcsTone : Nat := 0x0C
def ReadRxStatus : Nat := 0xE7
def ReadTxStatus : Nat := 0xF7
def ReadFreqAndMode : Nat := 0x03
def PowerOn : Nat := 0x0F
def PowerOff : Nat := PowerOn ||| OffBit
end Ft817Command_e

namespace OperatingMode_e
def LSB : Nat := 0x00
def USB : Nat := 0x01
def CW : Nat := 0x02
def CWR : Nat := 0x03
def AM : Nat := 0x04
def FM : Nat := 0x08
def DIG : Nat := 0x0A
def PKT : Nat := 0x0C
end OperatingMode_e

/-! ## Checked buffer access -/

/-- Load `buf[i]`; `none` when `i` is outside the buffer. -/
def loadAt (buf : List Nat) (i : Nat) : Option Nat := buf[i]?

/-- Store `buf[i] = v` into a `uint8_t` cell (the value is reduced `% 256`);
`none` when `i` is outside the buffer. -/
def storeAt (buf : List Nat) (i v : Nat) : Option (List Nat) :=
  if i < buf.length then some (buf.set i (v % 256)) else none

/-! ## Nibble helpers -/

/-- Embeds `uint8_t setHighNibble(uint8_t b, uint8_t v)`. -/
def setHighNibble (b v : Nat) : Nat :=
  -- Clear the high nibble
  let b := (b % 256) &&& 0x0f
  -- Set the high nibble
  (b ||| (((v % 256) &&& 0x0f) <<< 4)) % 256

/-- Embeds `uint8_t setLowNibble(uint8_t b, uint8_t v)`. -/
def setLowNibble (b v : Nat) : Nat :=
  -- Clear the low nibble
  let b := (b % 256) &&& 0xf0
  -- Set the low nibble
  (b ||| ((v % 256) &&& 0x0f)) % 256

/-- Embeds `uint8_t getHighNibble(uint8_t b)`. -/
def getHighNibble (b : Nat) : Nat :=
  (((b % 256) >>> 4) &&& 0x0f) % 256

/-- Embeds `uint8_t getLowNibble(uint8_t b)`. -/
def getLowNibble (b : Nat) : Nat :=
  ((b % 256) &&& 0x0f) % 256

/-! ## BCD frequency codec -/

/-- Body of the `for` loop of `getDecimalDigits`, with `i` the loop counter and
the last argument the number of iterations still to run (`digits - i`). -/
def getDecimalDigitsLoop (number : Nat) (result : List Nat) (i : Nat) :
    Nat → Option (List Nat)
  | 0 => some result
  | k + 1 =>
    -- "Mask off" (in a decimal sense) the LSD and return it
    (storeAt result i (number % 10)).bind fun result =>
    -- "Shift right" (in a decimal sense)
    getDecimalDigitsLoop (number / 10) result (i + 1) k

/-- Embeds `void getDecimalDigits(unsigned long number, uint8_t* result, int digits)`.
The loop `for (int i = 0; i < digits; i++)` runs `digits` times, and not at
all for a negative `digits`. -/
def getDecimalDigits (number : Nat) (result : List Nat) (digits : Int) :
    Option (List Nat) :=
  getDecimalDigitsLoop (number % 2 ^ 32) result 0 digits.toNat

/-- The statement `cmd[i] = setLowNibble(cmd[i], digits[j]);` of `writeFreq`. -/
def assignLowNibble (cmd : List Nat) (i : Nat) (digits : List Nat) (j : Nat) :
    Option (List Nat) := do
  let c ← loadAt cmd i
  let d ← loadAt digits j
  storeAt cmd i (setLowNibble c d)

/-- The statement `cmd[i] = setHighNibble(cmd[i], digits[j]);` of `writeFreq`. -/
def assignHighNibble (cmd : List Nat) (i : Nat) (digits : List Nat) (j : Nat) :
    Option (List Nat) := do
  let c ← loadAt cmd i
  let d ← loadAt digits j
  storeAt cmd i (setHighNibble c d)

/-- Embeds `void writeFreq(unsigned long freq, uint8_t* cmd)`; the result is the
buffer `cmd` after the call.  The local array `digits[9]` starts zero-filled
here: `getDecimalDigits` stores all nine entries before any is loaded (see
`getDecimalDigits_nine`), so its indeterminate initial content is never seen. -/
def writeFreq (freq : Nat) (cmd : List Nat) : Option (List Nat) := do
  let digits ← getDecimalDigits freq (List.replicate 9 0) 9
  -- Start from the LSB and get each nibble
  let cmd ← assignLowNibble cmd P4 digits 1
  let cmd ← assignHighNibble cmd P4 digits 2
  let cmd ← assignLowNibble cmd P3 digits 3
  let cmd ← assignHighNibble cmd P3 digits 4
  let cmd ← assignLowNibble cmd P2 digits 5
  let cmd ← assignHighNibble cmd P2 digits 6
  let cmd ← assignLowNibble cmd P1 digits 7
  let cmd ← assignHighNibble cmd P1 digits 8
  pure cmd

/-- Body of the `for` loop of `readFreq`, with `i` the loop counter and the
last argument the number of iterations still to run (`4 - i`). -/
def readFreqLoop (cmd : List Nat) (ret : Nat) (i : Nat) : Nat → Option Nat
  | 0 => some ret
  | k + 1 =>
    (loadAt cmd i).bind fun b =>
    let d1 := getHighNibble b
    let d0 := getLowNibble b
    let ret := (ret * 100) % 2 ^ 32
    let ret := (ret + (10 * d1 + d0)) % 2 ^ 32
    readFreqLoop cmd ret (i + 1) k

/-- Embeds `uint32_t readFreq(uint8_t* cmd)`. -/
def readFreq (cmd : List Nat) : Option Nat :=
  (readFreqLoop cmd 0 0 4).map fun ret => (ret * 10) % 2 ^ 32

/-- The decimal digit of `n` at position `i`, counted from the least
significant digit as position 0. -/
def digitAt (n i : Nat) : Nat := n / 10 ^ i % 10

/-! ## Radio state and collaborators

`settings.h`, `tuner.h` and `nano_gui.h` are not part of this translation unit.
What `ubitx_cat.cpp` uses from them is modelled below. -/

/-- Modelled from the spec: the VFO designator `Vfo_e` of `settings.h`, one of
the two selectable frequency/mode slots A and B. -/
inductive Vfo_e where
  | VFO_A
  | VFO_B
  deriving DecidableEq, Repr

/-- Modelled from the spec: the mode `VfoMode_e` of `settings.h`, whose accessor
returns upper sideband, lower sideband or something else. -/
inductive VfoMode_e where
  | VFO_MODE_LSB
  | VFO_MODE_USB
  | VFO_MODE_OTHER
  deriving DecidableEq, Repr

/-- Modelled from the spec: one VFO slot of `settings.h`, a frequency in Hz
(`uint32_t`) and a mode. -/
structure VfoSettings_t where
  frequency : Nat
  mode : VfoMode_e
  deriving DecidableEq, Repr

/-- Modelled from the spec: the fields of the settings singleton
`globalSettings` of `settings.h` that `ubitx_cat.cpp` reads or writes.  The
three CW fields are `uint16_t` values, `tuningMode` is the enumeration value
handed to `startTx`. -/
structure SettingsRam where
  vfoA : VfoSettings_t
  vfoB : VfoSettings_t
  activeVfo : Vfo_e
  cwSideToneFreq : Nat
  cwDitDurationMs : Nat
  cwActiveTimeoutMs : Nat
  tuningMode : Nat
  splitOn : Bool
  txActive : Bool
  txCatActive : Bool
  deriving DecidableEq, Repr

/-- A call of a collaborator defined outside `ubitx_cat.cpp`. -/
inductive Call where
  | setFrequency (freq : Nat)
  | updateDisplay
  | startTx (mode : Nat)
  | stopTx
  deriving DecidableEq, Repr

/-- Everything `ubitx_cat.cpp` acts on besides its own buffers: the settings
singleton, the bytes written to `Serial` so far (oldest first) and the
collaborator calls made so far (oldest first). -/
structure World where
  globalSettings : SettingsRam
  serial : List Nat
  calls : List Call
  deriving DecidableEq, Repr

/-- Modelled from the spec: `GetActiveVfoFreq()` of `settings.h`, the frequency
of the active VFO slot. -/
def GetActiveVfoFreq (s : SettingsRam) : Nat :=
  if Vfo_e.VFO_A = s.activeVfo then s.vfoA.frequency else s.vfoB.frequency

/-- Modelled from the spec: `GetActiveVfoMode()` of `settings.h`, the mode of
the active VFO slot. -/
def GetActiveVfoMode (s : SettingsRam) : VfoMode_e :=
  if Vfo_e.VFO_A = s.activeVfo then s.vfoA.mode else s.vfoB.mode

/-- Modelled from the spec: `SetActiveVfoMode(mode)` of `settings.h`, which
stores the mode of the active VFO slot. -/
def SetActiveVfoMode (mode : VfoMode_e) (s : SettingsRam) : SettingsRam :=
  if Vfo_e.VFO_A = s.activeVfo then { s with vfoA := { s.vfoA with mode := mode } }
  else { s with vfoB := { s.vfoB with mode := mode } }

/-- Modelled from the spec: `SetActiveVfoFreq(freq)` of `settings.h`, which
stores the frequency of the active VFO slot. -/
def SetActiveVfoFreq (freq : Nat) (s : SettingsRam) : SettingsRam :=
  if Vfo_e.VFO_A = s.activeVfo then { s with vfoA := { s.vfoA with frequency := freq } }
  else { s with vfoB := { s.vfoB with frequency := freq } }

/-- Modelled from the spec: `setFrequency(freq)` of `tuner.h`, the push of a
frequency to the radio.  The call is recorded and the frequency becomes the one
the active VFO reports. -/
def setFrequency (freq : Nat) (w : World) : World :=
  { w with
    globalSettings := SetActiveVfoFreq freq w.globalSettings
    calls := w.calls ++ [Call.setFrequency freq] }

/-- Modelled from the spec: `updateDisplay()` of `nano_gui.h`, a display refresh
whose result is never consulted.  The call is recorded. -/
def updateDisplay (w : World) : World :=
  { w with calls := w.calls ++ [Call.updateDisplay] }

/-- Modelled from the spec: `startTx(mode)`, the start of transmission.  The
call is recorded and the transmitter is active afterwards. -/
def startTx (mode : Nat) (w : World) : World :=
  { w with
    globalSettings := { w.globalSettings with txActive := true }
    calls := w.calls ++ [Call.startTx mode] }

/-- Modelled from the spec: `stopTx()`, the end of transmission.  The call is
recorded and the transmitter is inactive afterwards. -/
def stopTx (w : World) : World :=
  { w with
    globalSettings := { w.globalSettings with txActive := false }
    calls := w.calls ++ [Call.stopTx] }

/-- The call `Serial.write(buf, n)`: the first `n` bytes of `buf` go to the
serial port; `none` when the buffer has fewer than `n` bytes. -/
def serialWrite (buf : List Nat) (n : Nat) (w : World) : Option World :=
  if n ≤ buf.length then some { w with serial := w.serial ++ buf.take n } else none

/-- The call `Serial.write(b)` of a single byte. -/
def serialWriteByte (b : Nat) (w : World) : World :=
  { w with serial := w.serial ++ [b % 256] }

/-! ## Status registers -/

/-- Embeds `struct ReadRxStatus_t`: each field holds a value of its bit width. -/
structure ReadRxStatus_t where
  Smeter : Nat
  Dummy : Nat
  DiscriminatorCenteringOff : Nat
  CodeUnmatched : Nat
  SquelchSuppressionActive : Nat
  deriving DecidableEq, Repr

/-- Embeds `struct ReadTxStatus_t`: each field holds a value of its bit width. -/
structure ReadTxStatus_t where
  PowerOutputMeter : Nat
  Dummy : Nat
  SplitOff : Nat
  HighSwrDetected : Nat
  PttOff : Nat
  deriving DecidableEq, Repr

/-- The byte read through `*(uint8_t*)&reply_status` for a `ReadRxStatus_t`.
avr-gcc allocates bit-fields in declaration order starting at the least
significant bit, and an assignment to a bit-field keeps the low bits of the
value. -/
def ReadRxStatus_t.toByte (r : ReadRxStatus_t) : Nat :=
  r.Smeter % 16 + 16 * (r.Dummy % 2) + 32 * (r.DiscriminatorCenteringOff % 2)
    + 64 * (r.CodeUnmatched % 2) + 128 * (r.SquelchSuppressionActive % 2)

/-- The byte read through `*(uint8_t*)&reply_status` for a `ReadTxStatus_t`,
with the same bit-field layout as `ReadRxStatus_t.toByte`. -/
def ReadTxStatus_t.toByte (r : ReadTxStatus_t) : Nat :=
  r.PowerOutputMeter % 16 + 16 * (r.Dummy % 2) + 32 * (r.SplitOff % 2)
    + 64 * (r.HighSwrDetected % 2) + 128 * (r.PttOff % 2)

/-- The conversion of a C++ `bool` to an integer. -/
def boolToNat (b : Bool) : Nat := if b then 1 else 0

/-! ## Legacy register table -/

/-- The two stores `cat[P1] = a; cat[P2] = b;` of a table row of
`catReadEEPRom`. -/
def storePair (cat : List Nat) (a b : Nat) : Option (List Nat) :=
  (storeAt cat P1 a).bind fun cat => storeAt cat P2 b

/-- The `switch (temp1)` statement of `catReadEEPRom`: the buffer after the
selected row ran, `temp0` and `temp1` being the original `cat[P1]` and
`cat[P2]`.  The `uint16_t` arithmetic of rows 0x5E and 0x62 wraps `% 65536`
(`int` has 16 bits on the AVR, so the operands are converted to
`unsigned int`); row 0x62 divides by `cwDitDurationMs` and fails when that is
zero. -/
def catReadEEPRomSwitch (temp0 temp1 : Nat) (cat : List Nat) (s : SettingsRam) :
    Option (List Nat) :=
  if temp1 = 0x45 then
    if temp0 = 0x03 then storePair cat 0x00 0xD0 else some cat
  else if temp1 = 0x47 then
    if temp0 = 0x03 then storePair cat 0xDC 0xE0 else some cat
  else if temp1 = 0x55 then
    storePair cat (0x80 + (if Vfo_e.VFO_B = s.activeVfo then 1 else 0)) 0x00
  else if temp1 = 0x57 then
    storePair cat 0xC0 0x40
  else if temp1 = 0x59 then
    some cat
  else if temp1 = 0x5C then
    storePair cat 0xB2 0x42
  else if temp1 = 0x5E then
    storePair cat (((s.cwSideToneFreq + 65536 - 300) % 65536) / 50) 0x25
  else if temp1 = 0x61 then
    storePair cat (s.cwSideToneFreq % 50) 0x08
  else if temp1 = 0x5F then
    storePair cat 0x32 0x08
  else if temp1 = 0x60 then
    storePair cat (s.cwActiveTimeoutMs / 10) 0x32
  else if temp1 = 0x62 then
    if s.cwDitDurationMs = 0 then none
    else storePair cat ((1200 / s.cwDitDurationMs + 65536 - 4) % 65536) 0xB2
  else if temp1 = 0x63 then
    storePair cat 0xB2 0xA5
  else if temp1 = 0x64 then
    some cat
  else if temp1 = 0x67 then
    storePair cat 0xB2 0xB2
  else if temp1 = 0x69 ∨ temp1 = 0x78 then
    if VfoMode_e.VFO_MODE_USB = GetActiveVfoMode s then
      storeAt cat P1 (OperatingMode_e.USB <<< 5)
    else
      storeAt cat P1 (OperatingMode_e.LSB <<< 5)
  else if temp1 = 0x79 then
    storePair cat 0x00 0x00
  else if temp1 = 0x7A then
    storeAt cat P1 (if s.splitOn then 0xFF else 0x7F)
  else if temp1 = 0xB3 then
    storePair cat 0x00 0x4D
  else
    some cat

/-- Embeds `void catReadEEPRom(uint8_t* cat)`: the buffer `cat` after the call
and the world after the two reply bytes were written. -/
def catReadEEPRom (cat : List Nat) (w : World) : Option (List Nat × World) := do
  let temp0 ← loadAt cat P1
  let temp1 ← loadAt cat P2
  let cat ← storePair cat 0 0
  let cat ← catReadEEPRomSwitch temp0 temp1 cat w.globalSettings
  -- sent the data
  let w ← serialWrite cat 2 w
  pure (cat, w)

/-! ## Command dispatcher -/

/-- The indeterminate initial content of the local array
`uint8_t response[FT817_MESSAGE_SIZE]` of `processCatCommand`. -/
structure Uninit5 where
  b0 : Nat
  b1 : Nat
  b2 : Nat
  b3 : Nat
  b4 : Nat
  deriving DecidableEq, Repr

/-- The five cells of an uninitialised `response` array as a buffer. -/
def Uninit5.toList (u : Uninit5) : List Nat := [u.b0, u.b1, u.b2, u.b3, u.b4]

/-- The statements `response[0] = v; Serial.write(response, 1);`. -/
def replyByte (response : List Nat) (v : Nat) (w : World) : Option World :=
  (storeAt response 0 v).bind fun response => serialWrite response 1 w

/-- The `case Ft817Command_e::SetFrequency` block. -/
def caseSetFrequency (response cmd : List Nat) (w : World) : Option World :=
  (readFreq cmd).bind fun f =>
  let w := setFrequency f w
  let w := updateDisplay w
  replyByte response 0 w

/-- The `case Ft817Command_e::ReadFreqAndMode` block. -/
def caseReadFreqAndMode (response : List Nat) (w : World) : Option World :=
  -- First 4 bytes are the frequency
  (writeFreq (GetActiveVfoFreq w.globalSettings) response).bind fun response =>
  -- Last byte is the mode
  (storeAt response 4
    (if VfoMode_e.VFO_MODE_USB = GetActiveVfoMode w.globalSettings then OperatingMode_e.USB
     else OperatingMode_e.LSB)).bind fun response =>
  serialWrite response 5 w

/-- The `case Ft817Command_e::OperatingMode` block. -/
def caseOperatingMode (response cmd : List Nat) (w : World) : Option World :=
  (loadAt cmd P1).bind fun p1 =>
  let w :=
    if OperatingMode_e.LSB = p1 ∨ OperatingMode_e.CWR = p1 then
      { w with globalSettings := SetActiveVfoMode VfoMode_e.VFO_MODE_LSB w.globalSettings }
    else
      { w with globalSettings := SetActiveVfoMode VfoMode_e.VFO_MODE_USB w.globalSettings }
  (replyByte response 0x00 w).map fun w =>
  -- Refresh frequency to get new mode to take effect
  let w := setFrequency (GetActiveVfoFreq w.globalSettings) w
  updateDisplay w

/-- The `case Ft817Command_e::PttOn` block. -/
def casePttOn (response : List Nat) (w : World) : Option World :=
  if ¬ w.globalSettings.txActive then
    (storeAt response 0 0).bind fun response =>
    let w := { w with globalSettings := { w.globalSettings with txCatActive := true } }
    let w := startTx w.globalSettings.tuningMode w
    (serialWrite response 1 w).map updateDisplay
  else
    (storeAt response 0 0xf0).bind fun response =>
    (serialWrite response 1 w).map updateDisplay

/-- The `case Ft817Command_e::PttOff` block. -/
def casePttOff (response : List Nat) (w : World) : Option World :=
  let w := if w.globalSettings.txActive then stopTx w else w
  let w := { w with globalSettings := { w.globalSettings with txCatActive := false } }
  (replyByte response 0 w).map updateDisplay

/-- The `case Ft817Command_e::VfoToggle` block. -/
def caseVfoToggle (response : List Nat) (w : World) : Option World :=
  (storeAt response 0 0).bind fun response =>
  let w :=
    if Vfo_e.VFO_A = w.globalSettings.activeVfo then
      { w with globalSettings := { w.globalSettings with activeVfo := Vfo_e.VFO_B } }
    else
      { w with globalSettings := { w.globalSettings with activeVfo := Vfo_e.VFO_A } }
  (serialWrite response 1 w).map updateDisplay

/-- The `case Ft817Command_e::ReadRxStatus` block. -/
def caseReadRxStatus (response : List Nat) (w : World) : Option World :=
  -- We don't have visibility into these values, so just hard code stuff
  let reply_status : ReadRxStatus_t :=
    { Dummy := 0
      Smeter := 9
      SquelchSuppressionActive := 0
      DiscriminatorCenteringOff := 1
      CodeUnmatched := 0 }
  replyByte response reply_status.toByte w

/-- The `case Ft817Command_e::ReadTxStatus` block. -/
def caseReadTxStatus (response : List Nat) (w : World) : Option World :=
  -- We don't have visibility into some of these values, so just hard code stuff
  let reply_status : ReadTxStatus_t :=
    { Dummy := 0
      HighSwrDetected := 0
      PowerOutputMeter := 0xF
      PttOff := boolToNat (!w.globalSettings.txActive)
      SplitOff := boolToNat (!w.globalSettings.splitOn) }
  replyByte response reply_status.toByte w

/-- The `default` block: `response[0] = 0x00; Serial.write(response[0]);`. -/
def caseDefault (response : List Nat) (w : World) : Option World :=
  (storeAt response 0 0x00).bind fun response =>
  (loadAt response 0).map fun b => serialWriteByte b w

/-- Embeds `void processCatCommand(uint8_t* cmd)`.  `uninit` is the
indeterminate initial content of the local array `response`.  The result is the
buffer `cmd` after the call (only the 0xBB case changes it) and the world after
the call; `none` when the call faults. -/
def processCatCommand (uninit : Uninit5) (cmd : List Nat) (w : World) :
    Option (List Nat × World) :=
  let response := uninit.toList
  (loadAt cmd CMD).bind fun op =>
  if op = Ft817Command_e.SetFrequency then
    (caseSetFrequency response cmd w).map fun w => (cmd, w)
  else if op = Ft817Command_e.SplitOn then
    some (cmd, { w with globalSettings := { w.globalSettings with splitOn := true } })
  else if op = Ft817Command_e.SplitOff then
    some (cmd, { w with globalSettings := { w.globalSettings with splitOn := false } })
  else if op = Ft817Command_e.ReadFreqAndMode then
    (caseReadFreqAndMode response w).map fun w => (cmd, w)
  else if op = Ft817Command_e.OperatingMode then
    (caseOperatingMode response cmd w).map fun w => (cmd, w)
  else if op = Ft817Command_e.PttOn then
    (casePttOn response w).map fun w => (cmd, w)
  else if op = Ft817Command_e.PttOff then
    (casePttOff response w).map fun w => (cmd, w)
  else if op = Ft817Command_e.VfoToggle then
    (caseVfoToggle response w).map fun w => (cmd, w)
  else if op = 0xBB then
    -- Read FT-817 EEPROM Data
    catReadEEPRom cmd w
  else if op = Ft817Command_e.ReadRxStatus then
    (caseReadRxStatus response w).map fun w => (cmd, w)
  else if op = Ft817Command_e.ReadTxStatus then
    (caseReadTxStatus response w).map fun w => (cmd, w)
  else
    (caseDefault response w).map fun w => (cmd, w)

/-! ## Command framer -/

/-- The function-local statics of `checkCAT`. -/
structure CatState where
  rx_buffer : List Nat
  current_index : Nat
  timeout : Nat
  deriving DecidableEq, Repr

/-- What one call of `checkCAT` finds: the value `millis()` returns, the byte
`Serial.read()` returns when `Serial.available()` is not zero (`none` when it is
zero), and the indeterminate stack content `processCatCommand` would start
from. -/
structure Tick where
  now : Nat
  avail : Option Nat
  uninit : Uninit5
  deriving DecidableEq, Repr

/-- The outcome of one call of `checkCAT`: the statics and the world after the
call, and the frame handed to `processCatCommand` when the call dispatched
one. -/
structure TickResult where
  state : CatState
  world : World
  dispatched : Option (List Nat)
  deriving DecidableEq, Repr

/-- The statics of `checkCAT` at program start: `rx_buffer` zero-filled (static
storage), `current_index = 0`, `timeout = 0`. -/
def CatState.init : CatState :=
  { rx_buffer := List.replicate FT817_MESSAGE_SIZE 0, current_index := 0, timeout := 0 }

/-- Embeds `void checkCAT()`. -/
def checkCAT (st : CatState) (w : World) (t : Tick) : Option TickResult :=
  match t.avail with
  | none =>
    -- Set Buffer Clear status
    if st.timeout < t.now then
      some { state := { st with current_index := 0, timeout := 0 }, world := w,
             dispatched := none }
    else
      some { state := st, world := w, dispatched := none }
  | some byte =>
    let timeout :=
      if 0 = st.current_index then (t.now + CAT_RECEIVE_TIMEOUT_MS) % 2 ^ 32 else st.timeout
    (storeAt st.rx_buffer st.current_index byte).bind fun rx_buffer =>
    let current_index := (st.current_index + 1) % 256
    if current_index < FT817_MESSAGE_SIZE then
      some { state := { rx_buffer := rx_buffer, current_index := current_index,
                        timeout := timeout },
             world := w, dispatched := none }
    else
      (processCatCommand t.uninit rx_buffer w).map fun r =>
      { state := { rx_buffer := r.1, current_index := 0, timeout := 0 }, world := r.2,
        dispatched := some rx_buffer }

/-- The outcome of a run of `checkCAT` calls: the statics and the world after
the last call and the frames dispatched during the run, oldest first. -/
structure RunResult where
  state : CatState
  world : World
  frames : List (List Nat)
  deriving DecidableEq, Repr

/-- Successive calls of `checkCAT`, one per tick, as the main loop makes them. -/
def runCAT (st : CatState) (w : World) : List Tick → Option RunResult
  | [] => some { state := st, world := w, frames := [] }
  | t :: ts =>
    (checkCAT st w t).bind fun r =>
    (runCAT r.state r.world ts).map fun rr =>
    { rr with frames := r.dispatched.toList ++ rr.frames }

/-- The two decimal digits one byte contributes to `readFreq`:
`10 * high nibble + low nibble`. -/
def bcdPair (b : Nat) : Nat := 10 * getHighNibble b + getLowNibble b

/-! ## A sample radio state -/

/-- A sample radio state: VFO A on 7.074 MHz USB is active, VFO B holds
14 MHz LSB, a 100 ms dit, receiver idle, nothing written or called yet. -/
def exampleWorld : World :=
  { globalSettings :=
      { vfoA := { frequency := 7074000, mode := VfoMode_e.VFO_MODE_USB }
        vfoB := { frequency := 14000000, mode := VfoMode_e.VFO_MODE_LSB }
        activeVfo := Vfo_e.VFO_A
        cwSideToneFreq := 800
        cwDitDurationMs := 100
        cwActiveTimeoutMs := 500
        tuningMode := 0
        splitOn := false
        txActive := false
        txCatActive := false }
    serial := []
    calls := [] }

/-- A sample of stack garbage for the local array `response`. -/
def exampleUninit : Uninit5 :=
  { b0 := 0xAA, b1 := 0xBB, b2 := 0xCC, b3 := 0xDD, b4 := 0xEE }

/-! ## Lemmas on the codec -/

theorem and_fifteen (x : Nat) : x &&& 0x0f = x % 16 :=
  Nat.and_pow_two_sub_one_eq_mod x 4

set_option maxRecDepth 100000 in
theorem lowNibble_or : ∀ b < 256, ∀ v < 16, (b &&& 0xf0) ||| v = b / 16 * 16 + v := by
  decide

set_option maxRecDepth 100000 in
theorem highNibble_or : ∀ b < 16, ∀ v < 16, b ||| (v <<< 4) = v * 16 + b := by
  decide

theorem setLowNibble_eq (b v : Nat) :
    setLowNibble b v = (b % 256) / 16 * 16 + v % 16 := by
  unfold setLowNibble
  simp only [and_fifteen]
  rw [lowNibble_or (b % 256) (Nat.mod_lt _ (by decide)) (v % 256 % 16)
    (Nat.mod_lt _ (by decide))]
  omega

theorem setHighNibble_eq (b v : Nat) :
    setHighNibble b v = (v % 16) * 16 + b % 16 := by
  unfold setHighNibble
  simp only [and_fifteen]
  rw [highNibble_or (b % 256 % 16) (Nat.mod_lt _ (by decide)) (v % 256 % 16)
    (Nat.mod_lt _ (by decide))]
  omega

theorem getHighNibble_eq (b : Nat) : getHighNibble b = b % 256 / 16 := by
  unfold getHighNibble
  simp only [and_fifteen, Nat.shiftRight_eq_div_pow]
  omega

theorem getLowNibble_eq (b : Nat) : getLowNibble b = b % 16 := by
  unfold getLowNibble
  simp only [and_fifteen]
  omega

theorem getDecimalDigits_nine (n j0 j1 j2 j3 j4 j5 j6 j7 j8 : Nat) :
    getDecimalDigits n [j0, j1, j2, j3, j4, j5, j6, j7, j8] 9 =
      some [digitAt (n % 2 ^ 32) 0, digitAt (n % 2 ^ 32) 1, digitAt (n % 2 ^ 32) 2,
        digitAt (n % 2 ^ 32) 3, digitAt (n % 2 ^ 32) 4, digitAt (n % 2 ^ 32) 5,
        digitAt (n % 2 ^ 32) 6, digitAt (n % 2 ^ 32) 7, digitAt (n % 2 ^ 32) 8] := by
  simp [getDecimalDigits, getDecimalDigitsLoop, storeAt, digitAt, Nat.div_div_eq_div_mul]
  omega


theorem writeFreq_eq (f c0 c1 c2 c3 : Nat) (rest : List Nat) :
    writeFreq f (c0 :: c1 :: c2 :: c3 :: rest) =
      some ((digitAt (f % 2 ^ 32) 8 * 16 + digitAt (f % 2 ^ 32) 7) ::
        (digitAt (f % 2 ^ 32) 6 * 16 + digitAt (f % 2 ^ 32) 5) ::
        (digitAt (f % 2 ^ 32) 4 * 16 + digitAt (f % 2 ^ 32) 3) ::
        (digitAt (f % 2 ^ 32) 2 * 16 + digitAt (f % 2 ^ 32) 1) :: rest) := by
  have hd : List.replicate 9 0 = [0, 0, 0, 0, 0, 0, 0, 0, 0] := rfl
  have h10 : ∀ i, digitAt (f % 4294967296) i < 10 := fun i => Nat.mod_lt _ (by decide)
  have h1 := h10 1; have h2 := h10 2; have h3 := h10 3; have h4 := h10 4
  have h5 := h10 5; have h6 := h10 6; have h7 := h10 7; have h8 := h10 8
  simp [writeFreq, hd, getDecimalDigits_nine, assignLowNibble, assignHighNibble,
    loadAt, storeAt, P1, P2, P3, P4, setLowNibble_eq, setHighNibble_eq]
  omega

theorem readFreq_eq (b0 b1 b2 b3 : Nat) (rest : List Nat) :
    readFreq (b0 :: b1 :: b2 :: b3 :: rest) =
      some (10 * ((10 * (b0 % 256 / 16) + b0 % 16) * 1000000
        + (10 * (b1 % 256 / 16) + b1 % 16) * 10000
        + (10 * (b2 % 256 / 16) + b2 % 16) * 100
        + (10 * (b3 % 256 / 16) + b3 % 16))) := by
  simp only [readFreq, readFreqLoop, loadAt, getHighNibble_eq, getLowNibble_eq,
    List.getElem?_cons_succ, List.getElem?_cons_zero, Option.bind, Option.map]
  simp only [Option.some.injEq]
  omega




theorem bcd_byte_decode (a b : Nat) (ha : a < 10) (hb : b < 10) :
    10 * ((a * 16 + b) % 256 / 16) + (a * 16 + b) % 16 = 10 * a + b := by
  omega

theorem digitAt_lt (n i : Nat) : digitAt n i < 10 := Nat.mod_lt _ (by decide)

theorem digits_sum (n : Nat) :
    10 * ((10 * digitAt n 8 + digitAt n 7) * 1000000
        + (10 * digitAt n 6 + digitAt n 5) * 10000
        + (10 * digitAt n 4 + digitAt n 3) * 100
        + (10 * digitAt n 2 + digitAt n 1)) = n % 1000000000 / 10 * 10 := by
  have e1 : n / 10 ^ 1 = n / 10 := by norm_num
  have e2 : n / 10 ^ 2 = n / 10 / 10 := by simp only [Nat.div_div_eq_div_mul]; norm_num
  have e3 : n / 10 ^ 3 = n / 10 / 10 / 10 := by simp only [Nat.div_div_eq_div_mul]; norm_num
  have e4 : n / 10 ^ 4 = n / 10 / 10 / 10 / 10 := by
    simp only [Nat.div_div_eq_div_mul]; norm_num
  have e5 : n / 10 ^ 5 = n / 10 / 10 / 10 / 10 / 10 := by
    simp only [Nat.div_div_eq_div_mul]; norm_num
  have e6 : n / 10 ^ 6 = n / 10 / 10 / 10 / 10 / 10 / 10 := by
    simp only [Nat.div_div_eq_div_mul]; norm_num
  have e7 : n / 10 ^ 7 = n / 10 / 10 / 10 / 10 / 10 / 10 / 10 := by
    simp only [Nat.div_div_eq_div_mul]; norm_num
  have e8 : n / 10 ^ 8 = n / 10 / 10 / 10 / 10 / 10 / 10 / 10 / 10 := by
    simp only [Nat.div_div_eq_div_mul]; norm_num
  simp only [digitAt, e1, e2, e3, e4, e5, e6, e7, e8]
  omega

theorem roundtrip_eq (f c0 c1 c2 c3 : Nat) (rest : List Nat) :
    (writeFreq f (c0 :: c1 :: c2 :: c3 :: rest)).bind readFreq =
      some (f % 2 ^ 32 % 1000000000 / 10 * 10) := by
  rw [writeFreq_eq, Option.some_bind, readFreq_eq]
  simp only [bcd_byte_decode _ _ (digitAt_lt _ _) (digitAt_lt _ _), digits_sum]

/-! ## Lemmas on the framer -/

theorem checkCAT_byte (b0 b1 b2 b3 b4 i d : Nat) (w : World) (t : Tick) (byte : Nat)
    (hi : i < 4) (ha : t.avail = some byte) :
    checkCAT { rx_buffer := [b0, b1, b2, b3, b4], current_index := i, timeout := d } w t =
      some { state := { rx_buffer := [b0, b1, b2, b3, b4].set i (byte % 256),
                        current_index := i + 1,
                        timeout := if 0 = i then (t.now + 500) % 2 ^ 32 else d },
             world := w, dispatched := none } := by
  have h1 : (i + 1) % 256 = i + 1 := Nat.mod_eq_of_lt (by omega)
  have h2 : i + 1 < 5 := by omega
  have h3 : i < 5 := by omega
  simp [checkCAT, ha, storeAt, h1, h2, h3, FT817_MESSAGE_SIZE, CAT_RECEIVE_TIMEOUT_MS]

theorem checkCAT_fifth (b0 b1 b2 b3 b4 d : Nat) (w : World) (t : Tick) (byte : Nat)
    (ha : t.avail = some byte) :
    checkCAT { rx_buffer := [b0, b1, b2, b3, b4], current_index := 4, timeout := d } w t =
      (processCatCommand t.uninit [b0, b1, b2, b3, byte % 256] w).map fun r =>
        { state := { rx_buffer := r.1, current_index := 0, timeout := 0 }, world := r.2,
          dispatched := some [b0, b1, b2, b3, byte % 256] } := by
  simp [checkCAT, ha, storeAt, FT817_MESSAGE_SIZE]

theorem processCatCommand_SetFrequency (u : Uninit5) (p1 p2 p3 p4 : Nat) (w : World) :
    processCatCommand u [p1, p2, p3, p4, 0x01] w =
      (readFreq [p1, p2, p3, p4, 0x01]).map fun f =>
        ([p1, p2, p3, p4, 0x01],
         { globalSettings := SetActiveVfoFreq f w.globalSettings
           serial := w.serial ++ [0]
           calls := w.calls ++ [Call.setFrequency f, Call.updateDisplay] }) := by
  simp [processCatCommand, loadAt, CMD, Ft817Command_e.SetFrequency, caseSetFrequency,
    replyByte, storeAt, Uninit5.toList, serialWrite, setFrequency, updateDisplay, readFreq_eq]


theorem catReadEEPRomSwitch_total (c0 c1 c2 c3 c4 : Nat) (s : SettingsRam)
    (hok : ¬ (c1 = 0x62 ∧ s.cwDitDurationMs = 0)) :
    ∃ a b, catReadEEPRomSwitch c0 c1 [0, 0, c2, c3, c4] s = some [a, b, c2, c3, c4] := by
  unfold catReadEEPRomSwitch
  by_cases h : c1 = 0x45
  · rw [if_pos h]; by_cases h0 : c0 = 0x03
    · rw [if_pos h0]; exact ⟨_, _, rfl⟩
    · rw [if_neg h0]; exact ⟨_, _, rfl⟩
  rw [if_neg h]; clear h
  by_cases h : c1 = 0x47
  · rw [if_pos h]; by_cases h0 : c0 = 0x03
    · rw [if_pos h0]; exact ⟨_, _, rfl⟩
    · rw [if_neg h0]; exact ⟨_, _, rfl⟩
  rw [if_neg h]; clear h
  by_cases h : c1 = 0x55
  · rw [if_pos h]; exact ⟨_, _, rfl⟩
  rw [if_neg h]; clear h
  by_cases h : c1 = 0x57
  · rw [if_pos h]; exact ⟨_, _, rfl⟩
  rw [if_neg h]; clear h
  by_cases h : c1 = 0x59
  · rw [if_pos h]; exact ⟨_, _, rfl⟩
  rw [if_neg h]; clear h
  by_cases h : c1 = 0x5C
  · rw [if_pos h]; exact ⟨_, _, rfl⟩
  rw [if_neg h]; clear h
  by_cases h : c1 = 0x5E
  · rw [if_pos h]; exact ⟨_, _, rfl⟩
  rw [if_neg h]; clear h
  by_cases h : c1 = 0x61
  · rw [if_pos h]; exact ⟨_, _, rfl⟩
  rw [if_neg h]; clear h
  by_cases h : c1 = 0x5F
  · rw [if_pos h]; exact ⟨_, _, rfl⟩
  rw [if_neg h]; clear h
  by_cases h : c1 = 0x60
  · rw [if_pos h]; exact ⟨_, _, rfl⟩
  rw [if_neg h]; clear h
  by_cases h : c1 = 0x62
  · rw [if_pos h, if_neg (fun hz => hok ⟨h, hz⟩)]; exact ⟨_, _, rfl⟩
  rw [if_neg h]; clear h
  by_cases h : c1 = 0x63
  · rw [if_pos h]; exact ⟨_, _, rfl⟩
  rw [if_neg h]; clear h
  by_cases h : c1 = 0x64
  · rw [if_pos h]; exact ⟨_, _, rfl⟩
  rw [if_neg h]; clear h
  by_cases h : c1 = 0x67
  · rw [if_pos h]; exact ⟨_, _, rfl⟩
  rw [if_neg h]; clear h
  by_cases h : c1 = 0x69 ∨ c1 = 0x78
  · rw [if_pos h]; by_cases hm : VfoMode_e.VFO_MODE_USB = GetActiveVfoMode s
    · rw [if_pos hm]; exact ⟨_, _, rfl⟩
    · rw [if_neg hm]; exact ⟨_, _, rfl⟩
  rw [if_neg h]; clear h
  by_cases h : c1 = 0x79
  · rw [if_pos h]; exact ⟨_, _, rfl⟩
  rw [if_neg h]; clear h
  by_cases h : c1 = 0x7A
  · rw [if_pos h]; exact ⟨_, _, rfl⟩
  rw [if_neg h]; clear h
  by_cases h : c1 = 0xB3
  · rw [if_pos h]; exact ⟨_, _, rfl⟩
  rw [if_neg h]; clear h
  exact ⟨_, _, rfl⟩

theorem catReadEEPRom_total (c0 c1 c2 c3 c4 : Nat) (w : World)
    (hok : ¬ (c1 = 0x62 ∧ w.globalSettings.cwDitDurationMs = 0)) :
    ∃ a b, catReadEEPRom [c0, c1, c2, c3, c4] w =
      some ([a, b, c2, c3, c4], { w with serial := w.serial ++ [a, b] }) := by
  obtain ⟨a, b, h⟩ := catReadEEPRomSwitch_total c0 c1 c2 c3 c4 w.globalSettings hok
  refine ⟨a, b, ?_⟩
  simp [catReadEEPRom, loadAt, P1, P2, storePair, storeAt, h, serialWrite]

/-! ## Lemmas on the dispatcher: one closed form per opcode -/

theorem writeFreq_indep (f c0 c1 c2 c3 : Nat) (rest : List Nat) :
    writeFreq f (c0 :: c1 :: c2 :: c3 :: rest) =
      (writeFreq f [0, 0, 0, 0]).map fun bcd => bcd ++ rest := by
  rw [writeFreq_eq, writeFreq_eq]; rfl

theorem processCatCommand_SplitOn (u : Uninit5) (c0 c1 c2 c3 : Nat) (w : World) :
    processCatCommand u [c0, c1, c2, c3, 0x02] w =
      some ([c0, c1, c2, c3, 0x02],
        { w with globalSettings := { w.globalSettings with splitOn := true } }) := by
  rfl

theorem processCatCommand_SplitOff (u : Uninit5) (c0 c1 c2 c3 : Nat) (w : World) :
    processCatCommand u [c0, c1, c2, c3, 0x82] w =
      some ([c0, c1, c2, c3, 0x82],
        { w with globalSettings := { w.globalSettings with splitOn := false } }) := by
  rfl

theorem processCatCommand_ReadFreqAndMode (u : Uninit5) (c0 c1 c2 c3 : Nat) (w : World) :
    processCatCommand u [c0, c1, c2, c3, 0x03] w =
      (writeFreq (GetActiveVfoFreq w.globalSettings) [0, 0, 0, 0]).map fun bcd =>
        ([c0, c1, c2, c3, 0x03],
         { w with serial := w.serial ++ (bcd ++
            [if VfoMode_e.VFO_MODE_USB = GetActiveVfoMode w.globalSettings then 0x01
             else 0x00]) }) := by
  simp only [processCatCommand, loadAt, CMD, Uninit5.toList, caseReadFreqAndMode]
  rw [writeFreq_eq, writeFreq_eq]
  by_cases hm : VfoMode_e.VFO_MODE_USB = GetActiveVfoMode w.globalSettings
  · rw [if_pos hm, if_pos hm]; rfl
  · rw [if_neg hm, if_neg hm]; rfl

theorem processCatCommand_OperatingMode (u : Uninit5) (c0 c1 c2 c3 : Nat) (w : World) :
    processCatCommand u [c0, c1, c2, c3, 0x07] w =
      some ([c0, c1, c2, c3, 0x07],
        { globalSettings :=
            SetActiveVfoFreq
              (GetActiveVfoFreq (SetActiveVfoMode
                (if c0 = 0x00 ∨ c0 = 0x03 then VfoMode_e.VFO_MODE_LSB
                 else VfoMode_e.VFO_MODE_USB) w.globalSettings))
              (SetActiveVfoMode
                (if c0 = 0x00 ∨ c0 = 0x03 then VfoMode_e.VFO_MODE_LSB
                 else VfoMode_e.VFO_MODE_USB) w.globalSettings)
          serial := w.serial ++ [0x00]
          calls := w.calls ++
            [Call.setFrequency (GetActiveVfoFreq (SetActiveVfoMode
                (if c0 = 0x00 ∨ c0 = 0x03 then VfoMode_e.VFO_MODE_LSB
                 else VfoMode_e.VFO_MODE_USB) w.globalSettings)),
             Call.updateDisplay] }) := by
  have e : (OperatingMode_e.LSB = c0 ∨ OperatingMode_e.CWR = c0) ↔ (c0 = 0x00 ∨ c0 = 0x03) := by
    simp only [OperatingMode_e.LSB, OperatingMode_e.CWR, eq_comm]
  simp only [processCatCommand, loadAt, CMD, Uninit5.toList, caseOperatingMode, P1]
  by_cases h : c0 = 0x00 ∨ c0 = 0x03
  · have h' : OperatingMode_e.LSB = c0 ∨ OperatingMode_e.CWR = c0 := e.mpr h
    simp [h, h', replyByte, storeAt, serialWrite, setFrequency, updateDisplay,
      Ft817Command_e.SetFrequency, Ft817Command_e.SplitOn, Ft817Command_e.SplitOff,
      Ft817Command_e.OffBit, Ft817Command_e.ReadFreqAndMode, Ft817Command_e.OperatingMode]
  · have h' : ¬ (OperatingMode_e.LSB = c0 ∨ OperatingMode_e.CWR = c0) := fun x => h (e.mp x)
    simp [h, h', replyByte, storeAt, serialWrite, setFrequency, updateDisplay,
      Ft817Command_e.SetFrequency, Ft817Command_e.SplitOn, Ft817Command_e.SplitOff,
      Ft817Command_e.OffBit, Ft817Command_e.ReadFreqAndMode, Ft817Command_e.OperatingMode]

theorem processCatCommand_PttOn (u : Uninit5) (c0 c1 c2 c3 : Nat) (w : World) :
    processCatCommand u [c0, c1, c2, c3, 0x08] w =
      some ([c0, c1, c2, c3, 0x08],
        if w.globalSettings.txActive = false then
          { globalSettings := { w.globalSettings with txCatActive := true, txActive := true }
            serial := w.serial ++ [0x00]
            calls := w.calls ++ [Call.startTx w.globalSettings.tuningMode, Call.updateDisplay] }
        else
          { w with
            serial := w.serial ++ [0xF0]
            calls := w.calls ++ [Call.updateDisplay] }) := by
  cases h : w.globalSettings.txActive
  · simp only [processCatCommand, loadAt, CMD, Uninit5.toList, casePttOn]
    simp [h, storeAt, serialWrite, startTx, updateDisplay,
      Ft817Command_e.SetFrequency, Ft817Command_e.SplitOn, Ft817Command_e.SplitOff,
      Ft817Command_e.OffBit, Ft817Command_e.ReadFreqAndMode, Ft817Command_e.OperatingMode,
      Ft817Command_e.PttOn]
  · simp only [processCatCommand, loadAt, CMD, Uninit5.toList, casePttOn]
    simp [h, storeAt, serialWrite, startTx, updateDisplay,
      Ft817Command_e.SetFrequency, Ft817Command_e.SplitOn, Ft817Command_e.SplitOff,
      Ft817Command_e.OffBit, Ft817Command_e.ReadFreqAndMode, Ft817Command_e.OperatingMode,
      Ft817Command_e.PttOn]

theorem processCatCommand_PttOff (u : Uninit5) (c0 c1 c2 c3 : Nat) (w : World) :
    processCatCommand u [c0, c1, c2, c3, 0x88] w =
      some ([c0, c1, c2, c3, 0x88],
        { globalSettings := { w.globalSettings with txActive := false, txCatActive := false }
          serial := w.serial ++ [0x00]
          calls := w.calls ++
            (if w.globalSettings.txActive = true then [Call.stopTx, Call.updateDisplay]
             else [Call.updateDisplay]) }) := by
  cases h : w.globalSettings.txActive
  · simp only [processCatCommand, loadAt, CMD, Uninit5.toList, casePttOff]
    simp [h, replyByte, storeAt, serialWrite, stopTx, updateDisplay,
      Ft817Command_e.SetFrequency, Ft817Command_e.SplitOn, Ft817Command_e.SplitOff,
      Ft817Command_e.OffBit, Ft817Command_e.ReadFreqAndMode, Ft817Command_e.OperatingMode,
      Ft817Command_e.PttOn, Ft817Command_e.PttOff]
  · simp only [processCatCommand, loadAt, CMD, Uninit5.toList, casePttOff]
    simp [h, replyByte, storeAt, serialWrite, stopTx, updateDisplay,
      Ft817Command_e.SetFrequency, Ft817Command_e.SplitOn, Ft817Command_e.SplitOff,
      Ft817Command_e.OffBit, Ft817Command_e.ReadFreqAndMode, Ft817Command_e.OperatingMode,
      Ft817Command_e.PttOn, Ft817Command_e.PttOff]

theorem processCatCommand_VfoToggle (u : Uninit5) (c0 c1 c2 c3 : Nat) (w : World) :
    processCatCommand u [c0, c1, c2, c3, 0x81] w =
      some ([c0, c1, c2, c3, 0x81],
        { globalSettings :=
            { w.globalSettings with
              activeVfo := if Vfo_e.VFO_A = w.globalSettings.activeVfo then Vfo_e.VFO_B
                           else Vfo_e.VFO_A }
          serial := w.serial ++ [0x00]
          calls := w.calls ++ [Call.updateDisplay] }) := by
  cases h : w.globalSettings.activeVfo <;>
  · simp only [processCatCommand, loadAt, CMD, Uninit5.toList, caseVfoToggle]
    simp [h, storeAt, serialWrite, updateDisplay,
      Ft817Command_e.SetFrequency, Ft817Command_e.SplitOn, Ft817Command_e.SplitOff,
      Ft817Command_e.OffBit, Ft817Command_e.ReadFreqAndMode, Ft817Command_e.OperatingMode,
      Ft817Command_e.PttOn, Ft817Command_e.PttOff, Ft817Command_e.VfoToggle]

theorem processCatCommand_ReadRxStatus (u : Uninit5) (c0 c1 c2 c3 : Nat) (w : World) :
    processCatCommand u [c0, c1, c2, c3, 0xE7] w =
      some ([c0, c1, c2, c3, 0xE7], { w with serial := w.serial ++ [0x29] }) := by
  rfl

theorem processCatCommand_ReadTxStatus (u : Uninit5) (c0 c1 c2 c3 : Nat) (w : World) :
    processCatCommand u [c0, c1, c2, c3, 0xF7] w =
      some ([c0, c1, c2, c3, 0xF7],
        { w with serial := w.serial ++
            [0x0F + 32 * boolToNat (!w.globalSettings.splitOn)
              + 128 * boolToNat (!w.globalSettings.txActive)] }) := by
  cases h1 : w.globalSettings.splitOn <;> cases h2 : w.globalSettings.txActive <;>
  · simp only [processCatCommand, loadAt, CMD, Uninit5.toList, caseReadTxStatus]
    simp [h1, h2, replyByte, storeAt, serialWrite, ReadTxStatus_t.toByte, boolToNat,
      Ft817Command_e.SetFrequency, Ft817Command_e.SplitOn, Ft817Command_e.SplitOff,
      Ft817Command_e.OffBit, Ft817Command_e.ReadFreqAndMode, Ft817Command_e.OperatingMode,
      Ft817Command_e.PttOn, Ft817Command_e.PttOff, Ft817Command_e.VfoToggle,
      Ft817Command_e.ReadRxStatus, Ft817Command_e.ReadTxStatus]

theorem processCatCommand_BB (u : Uninit5) (c0 c1 c2 c3 : Nat) (w : World) :
    processCatCommand u [c0, c1, c2, c3, 0xBB] w = catReadEEPRom [c0, c1, c2, c3, 0xBB] w := by
  rfl

theorem processCatCommand_default (u : Uninit5) (c0 c1 c2 c3 c4 : Nat) (w : World)
    (h01 : c4 ≠ 0x01) (h02 : c4 ≠ 0x02) (h82 : c4 ≠ 0x82) (h03 : c4 ≠ 0x03)
    (h07 : c4 ≠ 0x07) (h08 : c4 ≠ 0x08) (h88 : c4 ≠ 0x88) (h81 : c4 ≠ 0x81)
    (hBB : c4 ≠ 0xBB) (hE7 : c4 ≠ 0xE7) (hF7 : c4 ≠ 0xF7) :
    processCatCommand u [c0, c1, c2, c3, c4] w =
      some ([c0, c1, c2, c3, c4], { w with serial := w.serial ++ [0x00] }) := by
  have e82 : Ft817Command_e.SplitOff = 0x82 := rfl
  have e88 : Ft817Command_e.PttOff = 0x88 := rfl
  simp only [processCatCommand, loadAt, CMD, Uninit5.toList,
    Ft817Command_e.SetFrequency, Ft817Command_e.SplitOn, e82,
    Ft817Command_e.ReadFreqAndMode, Ft817Command_e.OperatingMode,
    Ft817Command_e.PttOn, e88, Ft817Command_e.VfoToggle,
    Ft817Command_e.ReadRxStatus, Ft817Command_e.ReadTxStatus]
  simp [h01, h02, h82, h03, h07, h08, h88, h81, hBB, hE7, hF7, caseDefault, storeAt, loadAt,
    serialWriteByte]

/-- The reply length of `processCatCommand` as a function of the opcode: nothing
for SplitOn/SplitOff, two bytes for 0xBB, five for ReadFreqAndMode, one for
every other opcode. -/
theorem processCatCommand_reply (u : Uninit5) (c0 c1 c2 c3 c4 : Nat) (w : World)
    (hok : ¬ (c4 = 0xBB ∧ c1 = 0x62 ∧ w.globalSettings.cwDitDurationMs = 0)) :
    ∃ cmd' w' reply, processCatCommand u [c0, c1, c2, c3, c4] w = some (cmd', w') ∧
      cmd'.length = 5 ∧
      w'.serial = w.serial ++ reply ∧
      reply.length =
        (if c4 = 0x02 ∨ c4 = 0x82 then 0 else if c4 = 0xBB then 2
         else if c4 = 0x03 then 5 else 1) := by
  by_cases h01 : c4 = 0x01
  · subst h01
    rw [processCatCommand_SetFrequency, readFreq_eq]
    exact ⟨_, _, [0], rfl, rfl, rfl, rfl⟩
  by_cases h02 : c4 = 0x02
  · subst h02
    exact ⟨_, _, [], processCatCommand_SplitOn u c0 c1 c2 c3 w, rfl, by simp, rfl⟩
  by_cases h82 : c4 = 0x82
  · subst h82
    exact ⟨_, _, [], processCatCommand_SplitOff u c0 c1 c2 c3 w, rfl, by simp, rfl⟩
  by_cases h03 : c4 = 0x03
  · subst h03
    rw [processCatCommand_ReadFreqAndMode, writeFreq_eq]
    exact ⟨_, _, _, rfl, rfl, rfl, rfl⟩
  by_cases h07 : c4 = 0x07
  · subst h07
    exact ⟨_, _, [0], processCatCommand_OperatingMode u c0 c1 c2 c3 w, rfl, rfl, rfl⟩
  by_cases h08 : c4 = 0x08
  · subst h08
    rw [processCatCommand_PttOn]
    by_cases ht : w.globalSettings.txActive = false
    · rw [if_pos ht]; exact ⟨_, _, [0], rfl, rfl, rfl, rfl⟩
    · rw [if_neg ht]; exact ⟨_, _, [0xF0], rfl, rfl, rfl, rfl⟩
  by_cases h88 : c4 = 0x88
  · subst h88
    exact ⟨_, _, [0], processCatCommand_PttOff u c0 c1 c2 c3 w, rfl, rfl, rfl⟩
  by_cases h81 : c4 = 0x81
  · subst h81
    exact ⟨_, _, [0], processCatCommand_VfoToggle u c0 c1 c2 c3 w, rfl, rfl, rfl⟩
  by_cases hBB : c4 = 0xBB
  · subst hBB
    obtain ⟨a, b, h⟩ := catReadEEPRom_total c0 c1 c2 c3 0xBB w (fun hh => hok ⟨rfl, hh⟩)
    rw [processCatCommand_BB, h]
    exact ⟨_, _, [a, b], rfl, rfl, rfl, rfl⟩
  by_cases hE7 : c4 = 0xE7
  · subst hE7
    exact ⟨_, _, [0x29], processCatCommand_ReadRxStatus u c0 c1 c2 c3 w, rfl, rfl, rfl⟩
  by_cases hF7 : c4 = 0xF7
  · subst hF7
    exact ⟨_, _, [_], processCatCommand_ReadTxStatus u c0 c1 c2 c3 w, rfl, rfl, rfl⟩
  refine ⟨_, _, [0], processCatCommand_default u c0 c1 c2 c3 c4 w h01 h02 h82 h03 h07 h08 h88
    h81 hBB hE7 hF7, rfl, rfl, ?_⟩
  simp [h02, h82, hBB, h03]

theorem checkCAT_none (st : CatState) (w : World) (t : Tick) (ha : t.avail = none) :
    checkCAT st w t =
      some { state := if st.timeout < t.now then { st with current_index := 0, timeout := 0 }
                      else st,
             world := w, dispatched := none } := by
  unfold checkCAT
  rw [ha]
  by_cases h : st.timeout < t.now
  · simp only [if_pos h]
  · simp only [if_neg h]

/-! ## Lemmas on runs of the framer -/

theorem checkCAT_byte_len (st : CatState) (w : World) (t : Tick) (byte : Nat)
    (hl : st.rx_buffer.length = 5) (hi : st.current_index < 4) (ha : t.avail = some byte) :
    checkCAT st w t =
      some { state := { rx_buffer := st.rx_buffer.set st.current_index (byte % 256),
                        current_index := st.current_index + 1,
                        timeout := if 0 = st.current_index then (t.now + 500) % 2 ^ 32
                                   else st.timeout },
             world := w, dispatched := none } := by
  have h1 : (st.current_index + 1) % 256 = st.current_index + 1 := Nat.mod_eq_of_lt (by omega)
  have h2 : st.current_index + 1 < 5 := by omega
  have h3 : st.current_index < 5 := by omega
  simp [checkCAT, ha, storeAt, h1, h2, h3, hl, FT817_MESSAGE_SIZE, CAT_RECEIVE_TIMEOUT_MS]

/-- Where the deadline does not wrap: from the Idle framer state, three ticks
delivering `a0 a1 a2` (the first at reading `s0`), then a poll that finds no
byte at a reading `te` with `s0 + 500 < te`, then five ticks delivering
`b0 .. b4` dispatch exactly the frame `[b0, b1, b2, b3, b4]`.  Both `s0` and
`te` are `millis()` readings, so the hypothesis leaves out every run in which
the 32-bit counter rolls over between the first byte and the poll. -/
theorem runCAT_timeout_drops_stale_bytes (x0 x1 x2 x3 x4 d : Nat) (w : World)
    (a0 a1 a2 b0 b1 b2 b3 b4 : Nat)
    (s0 s1 s2 te r0 r1 r2 r3 r4 : Nat) (ua0 ua1 ua2 ue ub0 ub1 ub2 ub3 ub4 : Uninit5)
    (hb : b0 < 256 ∧ b1 < 256 ∧ b2 < 256 ∧ b3 < 256 ∧ b4 < 256)
    (hlate : s0 + 500 < te)
    (hok : ¬ (b4 = 0xBB ∧ b1 = 0x62 ∧ w.globalSettings.cwDitDurationMs = 0)) :
    ∃ cmd' w', processCatCommand ub4 [b0, b1, b2, b3, b4] w = some (cmd', w') ∧
      runCAT { rx_buffer := [x0, x1, x2, x3, x4], current_index := 0, timeout := d } w
          [⟨s0, some a0, ua0⟩, ⟨s1, some a1, ua1⟩, ⟨s2, some a2, ua2⟩, ⟨te, none, ue⟩,
           ⟨r0, some b0, ub0⟩, ⟨r1, some b1, ub1⟩, ⟨r2, some b2, ub2⟩, ⟨r3, some b3, ub3⟩,
           ⟨r4, some b4, ub4⟩] =
        some { state := { rx_buffer := cmd', current_index := 0, timeout := 0 },
               world := w', frames := [[b0, b1, b2, b3, b4]] } := by
  obtain ⟨h0, h1, h2, h3, h4⟩ := hb
  have e0 : b0 % 256 = b0 := Nat.mod_eq_of_lt h0
  have e1 : b1 % 256 = b1 := Nat.mod_eq_of_lt h1
  have e2 : b2 % 256 = b2 := Nat.mod_eq_of_lt h2
  have e3 : b3 % 256 = b3 := Nat.mod_eq_of_lt h3
  have e4 : b4 % 256 = b4 := Nat.mod_eq_of_lt h4
  have hl : (s0 + 500) % 4294967296 < te := lt_of_le_of_lt (Nat.mod_le _ _) hlate
  obtain ⟨cmd', w', reply, hp, -, -, -⟩ := processCatCommand_reply ub4 b0 b1 b2 b3 b4 w hok
  refine ⟨cmd', w', hp, ?_⟩
  simp [runCAT, checkCAT_byte, checkCAT_fifth, checkCAT_none, hl, e0, e1, e2, e3, e4, hp]

/-- Three stale bytes at 0, 1, 2 ms, an empty poll at 501 ms, then an unknown
opcode frame: the stale bytes are dropped. -/
theorem runCAT_timeout_example :
    ((1 < 256 ∧ 2 < 256 ∧ 3 < 256 ∧ 4 < 256 ∧ 0x99 < 256) ∧ 0 + 500 < 501 ∧
      ¬ (0x99 = 0xBB ∧ 2 = 0x62 ∧ exampleWorld.globalSettings.cwDitDurationMs = 0)) ∧
    ∃ cmd' w',
      processCatCommand exampleUninit [1, 2, 3, 4, 0x99] exampleWorld = some (cmd', w') ∧
      runCAT { rx_buffer := [0, 0, 0, 0, 0], current_index := 0, timeout := 0 } exampleWorld
          [⟨0, some 0xF1, exampleUninit⟩, ⟨1, some 0xF2, exampleUninit⟩,
           ⟨2, some 0xF3, exampleUninit⟩, ⟨501, none, exampleUninit⟩,
           ⟨600, some 1, exampleUninit⟩, ⟨601, some 2, exampleUninit⟩,
           ⟨602, some 3, exampleUninit⟩, ⟨603, some 4, exampleUninit⟩,
           ⟨604, some 0x99, exampleUninit⟩] =
        some { state := { rx_buffer := cmd', current_index := 0, timeout := 0 },
               world := w', frames := [[1, 2, 3, 4, 0x99]] } :=
  ⟨⟨by decide, by decide, by decide⟩,
    runCAT_timeout_drops_stale_bytes 0 0 0 0 0 0 exampleWorld 0xF1 0xF2 0xF3 1 2 3 4 0x99
      0 1 2 501 600 601 602 603 604
      exampleUninit exampleUninit exampleUninit exampleUninit exampleUninit exampleUninit
      exampleUninit exampleUninit exampleUninit (by decide) (by decide) (by decide)⟩

/-! ## Further lemmas: register table, settings accessors, digits, framer invariant -/

theorem catReadEEPRom_vfo (c0 c2 c3 c4 : Nat) (w : World) :
    catReadEEPRom [c0, 0x55, c2, c3, c4] w =
      some ([0x80 + (if Vfo_e.VFO_B = w.globalSettings.activeVfo then 1 else 0), 0x00, c2, c3, c4],
        { w with serial := w.serial ++
            [0x80 + (if Vfo_e.VFO_B = w.globalSettings.activeVfo then 1 else 0), 0x00] }) := by
  cases h : w.globalSettings.activeVfo <;>
    simp [catReadEEPRom, loadAt, P1, P2, storePair, storeAt, catReadEEPRomSwitch, h, serialWrite]

theorem catReadEEPRomSwitch_unrecognized (temp0 temp1 : Nat) (cat : List Nat) (s : SettingsRam)
    (h : temp1 ∉ [0x45, 0x47, 0x55, 0x57, 0x59, 0x5C, 0x5E, 0x5F, 0x60, 0x61, 0x62, 0x63, 0x64,
      0x67, 0x69, 0x78, 0x79, 0x7A, 0xB3]) :
    catReadEEPRomSwitch temp0 temp1 cat s = some cat := by
  simp only [List.mem_cons, List.mem_singleton, not_or, List.not_mem_nil, not_false_eq_true,
    and_true] at h
  obtain ⟨h45, h47, h55, h57, h59, h5C, h5E, h5F, h60, h61, h62, h63, h64, h67, h69, h78, h79,
    h7A, hB3⟩ := h
  unfold catReadEEPRomSwitch
  rw [if_neg h45, if_neg h47, if_neg h55, if_neg h57, if_neg h59, if_neg h5C, if_neg h5E,
    if_neg h61, if_neg h5F, if_neg h60, if_neg h62, if_neg h63, if_neg h64, if_neg h67,
    if_neg (not_or.mpr ⟨h69, h78⟩), if_neg h79, if_neg h7A, if_neg hB3]

theorem catReadEEPRom_unrecognized (c0 c1 c2 c3 c4 : Nat) (w : World)
    (h : c1 ∉ [0x45, 0x47, 0x55, 0x57, 0x59, 0x5C, 0x5E, 0x5F, 0x60, 0x61, 0x62, 0x63, 0x64,
      0x67, 0x69, 0x78, 0x79, 0x7A, 0xB3]) :
    catReadEEPRom [c0, c1, c2, c3, c4] w =
      some ([0x00, 0x00, c2, c3, c4], { w with serial := w.serial ++ [0x00, 0x00] }) := by
  simp [catReadEEPRom, loadAt, P1, P2, storePair, storeAt,
    catReadEEPRomSwitch_unrecognized c0 c1 _ w.globalSettings h, serialWrite]

theorem catReadEEPRom_fault (c0 c2 c3 c4 : Nat) (w : World)
    (hd : w.globalSettings.cwDitDurationMs = 0) :
    catReadEEPRom [c0, 0x62, c2, c3, c4] w = none := by
  simp [catReadEEPRom, loadAt, P1, P2, storePair, storeAt, catReadEEPRomSwitch, hd]

theorem SetActiveVfoMode_freq (m : VfoMode_e) (s : SettingsRam) :
    GetActiveVfoFreq (SetActiveVfoMode m s) = GetActiveVfoFreq s := by
  cases h : s.activeVfo <;> simp [GetActiveVfoFreq, SetActiveVfoMode, h]

theorem SetActiveVfoMode_mode (m : VfoMode_e) (s : SettingsRam) :
    GetActiveVfoMode (SetActiveVfoMode m s) = m := by
  cases h : s.activeVfo <;> simp [GetActiveVfoMode, SetActiveVfoMode, h]

theorem SetActiveVfoFreq_same (s : SettingsRam) :
    SetActiveVfoFreq (GetActiveVfoFreq s) s = s := by
  rcases s with ⟨⟨fa, ma⟩, ⟨fb, mb⟩, v, _, _, _, _, _, _, _⟩
  cases v <;> rfl

theorem SetActiveVfoMode_other (m : VfoMode_e) (s : SettingsRam) :
    (SetActiveVfoMode m s).activeVfo = s.activeVfo ∧
    (SetActiveVfoMode m s).splitOn = s.splitOn ∧
    (SetActiveVfoMode m s).txActive = s.txActive ∧
    (SetActiveVfoMode m s).txCatActive = s.txCatActive ∧
    (SetActiveVfoMode m s).cwSideToneFreq = s.cwSideToneFreq ∧
    (SetActiveVfoMode m s).cwDitDurationMs = s.cwDitDurationMs ∧
    (SetActiveVfoMode m s).cwActiveTimeoutMs = s.cwActiveTimeoutMs ∧
    (SetActiveVfoMode m s).tuningMode = s.tuningMode := by
  cases h : s.activeVfo <;> simp [SetActiveVfoMode, h]

theorem testBit_flag_byte (b i : Nat) (hb : b = 0x80 ∨ b = 0x81) (h0 : i ≠ 0) (h7 : i ≠ 7) :
    b.testBit i = false := by
  by_cases hi : i < 8
  · rcases hb with h | h <;> subst h <;> interval_cases i <;> first | decide | contradiction
  · apply Nat.testBit_lt_two_pow
    have : 2 ^ 8 ≤ 2 ^ i := Nat.pow_le_pow_right (by decide) (by omega)
    rcases hb with h | h <;> subst h <;> omega

theorem processCatCommand_fault (u : Uninit5) (c0 c2 c3 : Nat) (w : World)
    (hd : w.globalSettings.cwDitDurationMs = 0) :
    processCatCommand u [c0, 0x62, c2, c3, 0xBB] w = none := by
  rw [processCatCommand_BB, catReadEEPRom_fault _ _ _ _ _ hd]

theorem getDecimalDigitsLoop_spec (k : Nat) :
    ∀ (number : Nat) (result : List Nat) (i : Nat), i + k ≤ result.length →
      ∃ out, getDecimalDigitsLoop number result i k = some out ∧
        out.length = result.length ∧
        (∀ j, j < k → out[i + j]? = some (number / 10 ^ j % 10)) ∧
        (∀ j, (j < i ∨ i + k ≤ j) → out[j]? = result[j]?) := by
  induction k with
  | zero =>
    intro number result i _
    exact ⟨result, rfl, rfl, fun j hj => absurd hj (Nat.not_lt_zero j), fun _ _ => rfl⟩
  | succ k ih =>
    intro number result i hlen
    have hi : i < result.length := by omega
    obtain ⟨out, ho, hl, hd, hf⟩ :=
      ih (number / 10) (result.set i (number % 10 % 256)) (i + 1)
        (by rw [List.length_set]; omega)
    refine ⟨out, ?_, ?_, ?_, ?_⟩
    · simp only [getDecimalDigitsLoop, storeAt, if_pos hi, Option.some_bind, ho]
    · rw [hl, List.length_set]
    · intro j hj
      cases j with
      | zero =>
        have h1 := hf i (Or.inl (Nat.lt_succ_self i))
        rw [Nat.add_zero, h1, List.getElem?_set_self hi]
        have : number % 10 % 256 = number % 10 := Nat.mod_eq_of_lt (by omega)
        simp [this]
      | succ j =>
        have h1 := hd j (by omega)
        have e : i + (j + 1) = i + 1 + j := by omega
        rw [e, h1, Nat.div_div_eq_div_mul, Nat.pow_succ, Nat.mul_comm]
    · intro j hj
      have h1 := hf j (by omega)
      rw [h1, List.getElem?_set_ne (by omega)]

theorem digit_sum_mod (n count : Nat) :
    ((Finset.range count).sum fun i => n / 10 ^ i % 10 * 10 ^ i) = n % 10 ^ count := by
  induction count with
  | zero => simp [Nat.mod_one]
  | succ c ih =>
    rw [Finset.sum_range_succ, ih, Nat.mod_pow_succ, Nat.mul_comm]

theorem digits_of_bcd (a0 e0 a1 e1 a2 e2 a3 e3 F : Nat)
    (h : (a0 ≤ 9 ∧ e0 ≤ 9) ∧ (a1 ≤ 9 ∧ e1 ≤ 9) ∧ (a2 ≤ 9 ∧ e2 ≤ 9) ∧ (a3 ≤ 9 ∧ e3 ≤ 9))
    (hF : F = 10 * ((10 * a0 + e0) * 1000000 + (10 * a1 + e1) * 10000
      + (10 * a2 + e2) * 100 + (10 * a3 + e3))) :
    F % 2 ^ 32 = F ∧
    (digitAt F 8 = a0 ∧ digitAt F 7 = e0) ∧ (digitAt F 6 = a1 ∧ digitAt F 5 = e1) ∧
    (digitAt F 4 = a2 ∧ digitAt F 3 = e2) ∧ (digitAt F 2 = a3 ∧ digitAt F 1 = e3) := by
  obtain ⟨⟨p0, q0⟩, ⟨p1, q1⟩, ⟨p2, q2⟩, ⟨p3, q3⟩⟩ := h
  have hlt : F < 2 ^ 32 := by norm_num; omega
  refine ⟨Nat.mod_eq_of_lt hlt, ⟨?_, ?_⟩, ⟨?_, ?_⟩, ⟨?_, ?_⟩, ⟨?_, ?_⟩⟩ <;>
  · simp only [digitAt]
    norm_num
    omega

theorem bcdPair_le (b : Nat) : bcdPair b ≤ 165 := by
  unfold bcdPair
  rw [getHighNibble_eq, getLowNibble_eq]
  omega

theorem length_five (l : List Nat) (h : l.length = 5) :
    ∃ a b c d e, l = [a, b, c, d, e] := by
  match l, h with
  | [a, b, c, d, e], _ => exact ⟨a, b, c, d, e, rfl⟩

theorem processCatCommand_length (u : Uninit5) (c0 c1 c2 c3 c4 : Nat) (w w' : World)
    (cmd' : List Nat) (h : processCatCommand u [c0, c1, c2, c3, c4] w = some (cmd', w')) :
    cmd'.length = 5 := by
  by_cases hok : c4 = 0xBB ∧ c1 = 0x62 ∧ w.globalSettings.cwDitDurationMs = 0
  · obtain ⟨h1, h2, h3⟩ := hok
    subst h1 h2
    rw [processCatCommand_fault u c0 c2 c3 w h3] at h
    exact absurd h (by simp)
  · obtain ⟨cmd'', w'', reply, hp, hl, -, -⟩ := processCatCommand_reply u c0 c1 c2 c3 c4 w hok
    rw [hp] at h
    simp only [Option.some.injEq, Prod.mk.injEq] at h
    rw [← h.1]
    exact hl

theorem checkCAT_invariant (st : CatState) (w : World) (t : Tick) (r : TickResult)
    (hl : st.rx_buffer.length = 5) (hi : st.current_index < 5)
    (h : checkCAT st w t = some r) :
    r.state.rx_buffer.length = 5 ∧ r.state.current_index < 5 ∧
      (r.dispatched ≠ none → r.state.current_index = 0 ∧ r.state.timeout = 0) := by
  cases ha : t.avail with
  | none =>
    rw [checkCAT_none st w t ha] at h
    simp only [Option.some.injEq] at h
    subst h
    refine ⟨?_, ?_, fun hd => absurd rfl hd⟩
    · split_ifs <;> exact hl
    · split_ifs
      · exact Nat.zero_lt_succ 4
      · exact hi
  | some byte =>
    by_cases h4 : st.current_index < 4
    · rw [checkCAT_byte_len st w t byte hl h4 ha] at h
      simp only [Option.some.injEq] at h
      subst h
      refine ⟨?_, ?_, fun hd => absurd rfl hd⟩
      · simp only [List.length_set]; exact hl
      · simp only; omega
    · have e4 : st.current_index = 4 := by omega
      obtain ⟨b0, b1, b2, b3, b4, hb⟩ := length_five st.rx_buffer hl
      have hst : st = ⟨[b0, b1, b2, b3, b4], 4, st.timeout⟩ := by
        cases st; simp_all
      rw [hst, checkCAT_fifth b0 b1 b2 b3 b4 st.timeout w t byte ha] at h
      cases hp : processCatCommand t.uninit [b0, b1, b2, b3, byte % 256] w with
      | none => rw [hp] at h; exact absurd h (by simp)
      | some res =>
        obtain ⟨cmd', w'⟩ := res
        rw [hp] at h
        simp only [Option.map_some', Option.some.injEq] at h
        subst h
        exact ⟨processCatCommand_length _ _ _ _ _ _ _ _ _ hp, Nat.zero_lt_succ 4,
          fun _ => ⟨rfl, rfl⟩⟩

theorem runCAT_invariant (ticks : List Tick) :
    ∀ (st : CatState) (w : World) (r : RunResult),
      st.rx_buffer.length = 5 → st.current_index < 5 → runCAT st w ticks = some r →
      r.state.rx_buffer.length = 5 ∧ r.state.current_index < 5 := by
  induction ticks with
  | nil =>
    intro st w r hl hi h
    simp only [runCAT, Option.some.injEq] at h
    subst h
    exact ⟨hl, hi⟩
  | cons t ts ih =>
    intro st w r hl hi h
    simp only [runCAT] at h
    cases hc : checkCAT st w t with
    | none => rw [hc] at h; exact absurd h (by simp)
    | some tr =>
      rw [hc] at h
      simp only [Option.some_bind] at h
      obtain ⟨hl', hi', -⟩ := checkCAT_invariant st w t tr hl hi hc
      cases hr : runCAT tr.state tr.world ts with
      | none => rw [hr] at h; exact absurd h (by simp)
      | some rr =>
        rw [hr] at h
        simp only [Option.map_some', Option.some.injEq] at h
        subst h
        exact ih tr.state tr.world rr hl' hi' hr

/-- The opcodes of `Ft817Command_e` that have no `case` label in
`processCatCommand` (Lock, Clar, Repeater, CTCSS/DCS, Power) all fall into the
`default` branch. -/
theorem unhandled_enum_opcodes :
    ∀ op ∈ [Ft817Command_e.LockOn, Ft817Command_e.LockOff, Ft817Command_e.ClarOn,
        Ft817Command_e.ClarOff, Ft817Command_e.ClarFrequency, Ft817Command_e.RepeaterMode,
        Ft817Command_e.RepeaterOffset, Ft817Command_e.CtcssDcsMode, Ft817Command_e.CtcssTone,
        Ft817Command_e.DcsTone, Ft817Command_e.PowerOn, Ft817Command_e.PowerOff],
      op ∉ [0x01, 0x02, 0x82, 0x03, 0x07, 0x08, 0x88, 0x81, 0xBB, 0xE7, 0xF7] := by
  decide

/-! ## The claims -/

/-- C1: for every frequency `f` that is a multiple of 10 with
`0 <= f <= 999,999,990` and every initial content of the buffer, `readFreq`
applied to the bytes produced by `writeFreq f` returns exactly `f`. -/
theorem C1_roundtrip_multiple_of_ten (f c0 c1 c2 c3 : Nat) (rest : List Nat)
    (h10 : f % 10 = 0) (hr : f ≤ 999999990) :
    (writeFreq f (c0 :: c1 :: c2 :: c3 :: rest)).bind readFreq = some f := by
  have h1 : f % 2 ^ 32 = f := Nat.mod_eq_of_lt (by omega)
  have h2 : f % 1000000000 = f := Nat.mod_eq_of_lt (by omega)
  rw [roundtrip_eq, h1, h2]
  congr 1
  omega

/-- The round trip of C1 at 7,074,000 Hz over a buffer full of garbage. -/
theorem C1_roundtrip_witness :
    7074000 % 10 = 0 ∧ 7074000 ≤ 999999990 ∧
      (writeFreq 7074000 [0xAA, 0xBB, 0xCC, 0xDD, 0xEE]).bind readFreq = some 7074000 :=
  ⟨by decide, by decide,
    C1_roundtrip_multiple_of_ten 7074000 0xAA 0xBB 0xCC 0xDD [0xEE] (by decide) (by decide)⟩

/-- C2 fails as stated: 1,000,000,001 Hz is an `unsigned long` that is not a
multiple of 10, and the round trip yields 0, not 1,000,000,000. -/
theorem C2_counterexample :
    1000000001 < 2 ^ 32 ∧ 1000000001 % 10 ≠ 0 ∧
      (writeFreq 1000000001 [0, 0, 0, 0, 0]).bind readFreq = some 0 ∧
      (writeFreq 1000000001 [0, 0, 0, 0, 0]).bind readFreq
        ≠ some (1000000001 - 1000000001 % 10) := by
  refine ⟨by decide, by decide, ?_, ?_⟩
  · rw [roundtrip_eq]; rfl
  · rw [roundtrip_eq]; decide

/-- C2, amended: for every `unsigned long` frequency `f` that is not a multiple
of 10, the round trip yields `f mod 10^9` rounded down to the nearest 10 Hz
(`writeFreq` keeps nine decimal digits), which is `f - f % 10` whenever
`f <= 999,999,999`. -/
theorem C2_roundtrip_rounds_down (f c0 c1 c2 c3 : Nat) (rest : List Nat)
    (h10 : f % 10 ≠ 0) (h32 : f < 2 ^ 32) :
    (writeFreq f (c0 :: c1 :: c2 :: c3 :: rest)).bind readFreq
        = some (f % 1000000000 - f % 10) ∧
      (f ≤ 999999999 →
        (writeFreq f (c0 :: c1 :: c2 :: c3 :: rest)).bind readFreq = some (f - f % 10)) := by
  have h1 : f % 2 ^ 32 = f := Nat.mod_eq_of_lt h32
  have hne : f % 10 ≠ 0 := h10
  rw [roundtrip_eq, h1]
  refine ⟨?_, fun hr => ?_⟩
  · congr 1
    omega
  · have h2 : f % 1000000000 = f := Nat.mod_eq_of_lt (by omega)
    rw [h2]
    congr 1
    omega

/-- The amended C2 at 14,234,567 Hz, which comes back as 14,234,560 Hz. -/
theorem C2_roundtrip_witness :
    14234567 % 10 ≠ 0 ∧ 14234567 < 2 ^ 32 ∧
      ((writeFreq 14234567 [0xAA, 0xBB, 0xCC, 0xDD, 0xEE]).bind readFreq
          = some (14234567 % 1000000000 - 14234567 % 10) ∧
        (14234567 ≤ 999999999 →
          (writeFreq 14234567 [0xAA, 0xBB, 0xCC, 0xDD, 0xEE]).bind readFreq
            = some (14234567 - 14234567 % 10))) :=
  ⟨by decide, by decide,
    C2_roundtrip_rounds_down 14234567 0xAA 0xBB 0xCC 0xDD [0xEE] (by decide) (by decide)⟩

/-- C3: from the Idle framer state (fill index 0, any buffer content, any
deadline), five consecutive ticks delivering the bytes `p1 p2 p3 p4 0x01`
dispatch nothing during the first four ticks and exactly one frame,
`[p1, p2, p3, p4, 0x01]`, on the fifth; the frequency handed to `setFrequency`
is `readFreq` of that frame, the reply is the single byte `0x00` and the framer
is Idle again.  For the bytes `0x01 0x42 0x34 0x56` the frequency is
14,234,560 Hz. -/
theorem C3_set_frequency_frame (x0 x1 x2 x3 x4 d : Nat) (w : World) (p1 p2 p3 p4 : Nat)
    (t1 t2 t3 t4 t5 : Nat) (u1 u2 u3 u4 u5 : Uninit5)
    (h1 : p1 < 256) (h2 : p2 < 256) (h3 : p3 < 256) (h4 : p4 < 256) :
    ∃ f, readFreq [p1, p2, p3, p4, 0x01] = some f ∧
      runCAT { rx_buffer := [x0, x1, x2, x3, x4], current_index := 0, timeout := d } w
          [⟨t1, some p1, u1⟩, ⟨t2, some p2, u2⟩, ⟨t3, some p3, u3⟩, ⟨t4, some p4, u4⟩] =
        some { state := { rx_buffer := [p1, p2, p3, p4, x4], current_index := 4,
                          timeout := (t1 + 500) % 2 ^ 32 },
               world := w, frames := [] } ∧
      runCAT { rx_buffer := [x0, x1, x2, x3, x4], current_index := 0, timeout := d } w
          [⟨t1, some p1, u1⟩, ⟨t2, some p2, u2⟩, ⟨t3, some p3, u3⟩, ⟨t4, some p4, u4⟩,
           ⟨t5, some 0x01, u5⟩] =
        some { state := { rx_buffer := [p1, p2, p3, p4, 0x01], current_index := 0,
                          timeout := 0 },
               world := { globalSettings := SetActiveVfoFreq f w.globalSettings
                          serial := w.serial ++ [0x00]
                          calls := w.calls ++ [Call.setFrequency f, Call.updateDisplay] },
               frames := [[p1, p2, p3, p4, 0x01]] } ∧
      (p1 = 0x01 → p2 = 0x42 → p3 = 0x34 → p4 = 0x56 → f = 14234560) := by
  have e1 : p1 % 256 = p1 := Nat.mod_eq_of_lt h1
  have e2 : p2 % 256 = p2 := Nat.mod_eq_of_lt h2
  have e3 : p3 % 256 = p3 := Nat.mod_eq_of_lt h3
  have e4 : p4 % 256 = p4 := Nat.mod_eq_of_lt h4
  obtain ⟨f, hf⟩ : ∃ f, readFreq [p1, p2, p3, p4, 0x01] = some f := ⟨_, readFreq_eq _ _ _ _ _⟩
  refine ⟨f, hf, ?_, ?_, ?_⟩
  · simp [runCAT, checkCAT_byte, e1, e2, e3, e4]
  · simp [runCAT, checkCAT_byte, checkCAT_fifth, e1, e2, e3, e4, processCatCommand_SetFrequency,
      hf]
  · intro q1 q2 q3 q4
    subst q1 q2 q3 q4
    have hd : readFreq [0x01, 0x42, 0x34, 0x56, 0x01] = some 14234560 := by decide
    rw [hd] at hf
    exact (Option.some.inj hf).symm

/-- The frame of the protocol documentation, `01 42 34 56 01`, fed to the
framer at program start. -/
theorem C3_set_frequency_witness :
    ∃ f, readFreq [0x01, 0x42, 0x34, 0x56, 0x01] = some f ∧
      runCAT { rx_buffer := [0, 0, 0, 0, 0], current_index := 0, timeout := 0 } exampleWorld
          [⟨10, some 0x01, exampleUninit⟩, ⟨11, some 0x42, exampleUninit⟩,
           ⟨12, some 0x34, exampleUninit⟩, ⟨13, some 0x56, exampleUninit⟩] =
        some { state := { rx_buffer := [0x01, 0x42, 0x34, 0x56, 0], current_index := 4,
                          timeout := (10 + 500) % 2 ^ 32 },
               world := exampleWorld, frames := [] } ∧
      runCAT { rx_buffer := [0, 0, 0, 0, 0], current_index := 0, timeout := 0 } exampleWorld
          [⟨10, some 0x01, exampleUninit⟩, ⟨11, some 0x42, exampleUninit⟩,
           ⟨12, some 0x34, exampleUninit⟩, ⟨13, some 0x56, exampleUninit⟩,
           ⟨14, some 0x01, exampleUninit⟩] =
        some { state := { rx_buffer := [0x01, 0x42, 0x34, 0x56, 0x01], current_index := 0,
                          timeout := 0 },
               world := { globalSettings := SetActiveVfoFreq f exampleWorld.globalSettings
                          serial := exampleWorld.serial ++ [0x00]
                          calls := exampleWorld.calls ++
                            [Call.setFrequency f, Call.updateDisplay] },
               frames := [[0x01, 0x42, 0x34, 0x56, 0x01]] } ∧
      ((0x01 : Nat) = 0x01 → (0x42 : Nat) = 0x42 → (0x34 : Nat) = 0x34 →
        (0x56 : Nat) = 0x56 → f = 14234560) :=
  C3_set_frequency_frame 0 0 0 0 0 0 exampleWorld 0x01 0x42 0x34 0x56 10 11 12 13 14
    exampleUninit exampleUninit exampleUninit exampleUninit exampleUninit
    (by decide) (by decide) (by decide) (by decide)

/-- C4 fails on the code when `millis()` rolls over: the first of three stale
bytes arrives at reading 4294966696 and arms the deadline 4294967196; the poll
that finds no byte 700 ms later reads 100, so `timeout < millis()` is false and
the stale bytes stay.  The five fresh bytes `11 22 33 44 99` then complete the
frame `F1 F2 F3 11 22`: the one frame dispatched starts with the stale bytes,
is not `[11, 22, 33, 44, 99]`, and the framer is left with fill index 3. -/
theorem C4_millis_wrap_keeps_stale_bytes :
    (4294966696 < 2 ^ 32 ∧ (4294966696 + 700) % 2 ^ 32 = 100) ∧
    (runCAT CatState.init exampleWorld
        [⟨4294966696, some 0xF1, exampleUninit⟩, ⟨4294966697, some 0xF2, exampleUninit⟩,
         ⟨4294966698, some 0xF3, exampleUninit⟩, ⟨100, none, exampleUninit⟩,
         ⟨101, some 0x11, exampleUninit⟩, ⟨102, some 0x22, exampleUninit⟩,
         ⟨103, some 0x33, exampleUninit⟩, ⟨104, some 0x44, exampleUninit⟩,
         ⟨105, some 0x99, exampleUninit⟩]).map
        (fun r => (r.frames, r.state.current_index, r.state.rx_buffer))
      = some ([[0xF1, 0xF2, 0xF3, 0x11, 0x22]], 3, [0x33, 0x44, 0x99, 0x11, 0x22]) ∧
    [[0xF1, 0xF2, 0xF3, 0x11, 0x22]] ≠ [[0x11, 0x22, 0x33, 0x44, 0x99]] := by
  refine ⟨by decide, ?_, by decide⟩
  decide

/-- C6 fails as stated: the SplitOn frame (opcode 0x02) and the SplitOff frame
(opcode 0x82) complete without writing any byte to the serial port. -/
theorem C6_counterexample :
    (processCatCommand exampleUninit [0, 0, 0, 0, 0x02] exampleWorld).map
        (fun r => r.2.serial) = some exampleWorld.serial ∧
      (processCatCommand exampleUninit [0, 0, 0, 0, 0x82] exampleWorld).map
        (fun r => r.2.serial) = some exampleWorld.serial := by
  decide

/-- C6, amended: on every 5-byte frame other than the faulting register read of
C7, `processCatCommand` completes and appends to the serial port no byte for
SplitOn (0x02) and SplitOff (0x82), 2 bytes for opcode 0xBB, 5 bytes for
ReadFreqAndMode (0x03) and exactly 1 byte for every other opcode. -/
theorem C6_reply_length (u : Uninit5) (c0 c1 c2 c3 c4 : Nat) (w : World)
    (hok : ¬ (c4 = 0xBB ∧ c1 = 0x62 ∧ w.globalSettings.cwDitDurationMs = 0)) :
    ∃ cmd' w' reply, processCatCommand u [c0, c1, c2, c3, c4] w = some (cmd', w') ∧
      w'.serial = w.serial ++ reply ∧
      reply.length =
        (if c4 = 0x02 ∨ c4 = 0x82 then 0 else if c4 = 0xBB then 2
         else if c4 = 0x03 then 5 else 1) := by
  obtain ⟨cmd', w', reply, h1, -, h2, h3⟩ := processCatCommand_reply u c0 c1 c2 c3 c4 w hok
  exact ⟨cmd', w', reply, h1, h2, h3⟩

/-- The amended C6 on a ReadFreqAndMode frame and the sample radio state. -/
theorem C6_reply_length_witness :
    ¬ ((0x03 : Nat) = 0xBB ∧ (0 : Nat) = 0x62 ∧
        exampleWorld.globalSettings.cwDitDurationMs = 0) ∧
    ∃ cmd' w' reply,
      processCatCommand exampleUninit [0, 0, 0, 0, 0x03] exampleWorld = some (cmd', w') ∧
      w'.serial = exampleWorld.serial ++ reply ∧
      reply.length =
        (if (0x03 : Nat) = 0x02 ∨ (0x03 : Nat) = 0x82 then 0
         else if (0x03 : Nat) = 0xBB then 2 else if (0x03 : Nat) = 0x03 then 5 else 1) :=
  ⟨by decide, C6_reply_length exampleUninit 0 0 0 0 0x03 exampleWorld (by decide)⟩

/-- C7 fails on the code: with a CW dit duration of 0 the register read
`BB` with sub-address `0x62` evaluates `1200 / cwDitDurationMs`, a division by
zero, and `processCatCommand` does not produce a reply. -/
theorem C7_dit_zero_faults :
    processCatCommand exampleUninit [0x00, 0x62, 0x00, 0x00, 0xBB]
      { exampleWorld with
        globalSettings := { exampleWorld.globalSettings with cwDitDurationMs := 0 } }
      = none := by
  decide

/-- C8: for every radio state, every parameter bytes and every initial content
`u` of the response buffer, a ReadFreqAndMode frame (opcode 0x03) appends
exactly 5 bytes to the serial port: the 4 bytes `bcd` that `writeFreq` produces
for the active frequency (whatever the buffer held before), then `0x01` when
the active mode is USB and `0x00` otherwise.  Nothing else changes.  For
7,074,000 Hz the 4 bytes are `00 70 74 00`. -/
theorem C8_read_freq_and_mode (u : Uninit5) (p1 p2 p3 p4 : Nat) (w : World) :
    ∃ bcd, bcd.length = 4 ∧
      (∀ z0 z1 z2 z3 rest, writeFreq (GetActiveVfoFreq w.globalSettings)
          (z0 :: z1 :: z2 :: z3 :: rest) = some (bcd ++ rest)) ∧
      processCatCommand u [p1, p2, p3, p4, 0x03] w =
        some ([p1, p2, p3, p4, 0x03],
          { w with serial := w.serial ++ (bcd ++
              [if GetActiveVfoMode w.globalSettings = VfoMode_e.VFO_MODE_USB then 0x01
               else 0x00]) }) ∧
      (GetActiveVfoFreq w.globalSettings = 7074000 → bcd = [0x00, 0x70, 0x74, 0x00]) := by
  obtain ⟨bcd, hb⟩ : ∃ bcd, writeFreq (GetActiveVfoFreq w.globalSettings) [0, 0, 0, 0]
      = some bcd := ⟨_, writeFreq_eq _ _ _ _ _ _⟩
  have hlen : bcd.length = 4 := by
    rw [writeFreq_eq] at hb
    rw [← Option.some.inj hb]
    rfl
  refine ⟨bcd, hlen, ?_, ?_, ?_⟩
  · intro z0 z1 z2 z3 rest
    rw [writeFreq_indep, hb]
    rfl
  · rw [processCatCommand_ReadFreqAndMode, hb]
    simp only [Option.map_some', eq_comm]
  · intro hf
    rw [hf] at hb
    have hd : writeFreq 7074000 [0, 0, 0, 0] = some [0x00, 0x70, 0x74, 0x00] := by decide
    rw [hd] at hb
    exact (Option.some.inj hb).symm

/-- The reply of C8 on the sample radio state (7,074,000 Hz, USB). -/
theorem C8_read_freq_and_mode_witness :
    ∃ bcd, bcd.length = 4 ∧
      (∀ z0 z1 z2 z3 rest, writeFreq (GetActiveVfoFreq exampleWorld.globalSettings)
          (z0 :: z1 :: z2 :: z3 :: rest) = some (bcd ++ rest)) ∧
      processCatCommand exampleUninit [0, 0, 0, 0, 0x03] exampleWorld =
        some ([0, 0, 0, 0, 0x03],
          { exampleWorld with serial := exampleWorld.serial ++ (bcd ++
              [if GetActiveVfoMode exampleWorld.globalSettings = VfoMode_e.VFO_MODE_USB
               then 0x01 else 0x00]) }) ∧
      (GetActiveVfoFreq exampleWorld.globalSettings = 7074000 →
        bcd = [0x00, 0x70, 0x74, 0x00]) :=
  C8_read_freq_and_mode exampleUninit 0 0 0 0 exampleWorld

/-- C9: a PttOn frame (opcode 0x08) received while the transmitter is not
active writes exactly `0x00`, sets the CAT-initiated-transmit flag and calls
`startTx` exactly once (then `updateDisplay`); received while the transmitter
is active it writes exactly `0xF0`, calls only `updateDisplay` and leaves every
setting, the CAT-initiated-transmit flag included, unchanged. -/
theorem C9_ptt_on (u : Uninit5) (c0 c1 c2 c3 : Nat) (w : World) :
    ∃ w', processCatCommand u [c0, c1, c2, c3, 0x08] w = some ([c0, c1, c2, c3, 0x08], w') ∧
      (w.globalSettings.txActive = false →
        w'.serial = w.serial ++ [0x00] ∧
        w'.globalSettings.txCatActive = true ∧
        w'.calls = w.calls ++ [Call.startTx w.globalSettings.tuningMode, Call.updateDisplay] ∧
        w'.calls.count (Call.startTx w.globalSettings.tuningMode)
          = w.calls.count (Call.startTx w.globalSettings.tuningMode) + 1) ∧
      (w.globalSettings.txActive = true →
        w'.serial = w.serial ++ [0xF0] ∧
        w'.globalSettings = w.globalSettings ∧
        w'.calls = w.calls ++ [Call.updateDisplay]) := by
  refine ⟨_, processCatCommand_PttOn u c0 c1 c2 c3 w, ?_, ?_⟩
  · intro h
    rw [if_pos h]
    refine ⟨rfl, rfl, rfl, ?_⟩
    simp [List.count_append, List.count_cons]
  · intro h
    rw [if_neg (by simp [h])]
    exact ⟨rfl, rfl, rfl⟩

/-- The PttOn frame of C9 on the sample radio state, whose transmitter is not
active. -/
theorem C9_ptt_on_witness :
    ∃ w', processCatCommand exampleUninit [0, 0, 0, 0, 0x08] exampleWorld
        = some ([0, 0, 0, 0, 0x08], w') ∧
      (exampleWorld.globalSettings.txActive = false →
        w'.serial = exampleWorld.serial ++ [0x00] ∧
        w'.globalSettings.txCatActive = true ∧
        w'.calls = exampleWorld.calls ++
          [Call.startTx exampleWorld.globalSettings.tuningMode, Call.updateDisplay] ∧
        w'.calls.count (Call.startTx exampleWorld.globalSettings.tuningMode)
          = exampleWorld.calls.count (Call.startTx exampleWorld.globalSettings.tuningMode)
            + 1) ∧
      (exampleWorld.globalSettings.txActive = true →
        w'.serial = exampleWorld.serial ++ [0xF0] ∧
        w'.globalSettings = exampleWorld.globalSettings ∧
        w'.calls = exampleWorld.calls ++ [Call.updateDisplay]) :=
  C9_ptt_on exampleUninit 0 0 0 0 exampleWorld

/-- C10: for every transmit-active flag and split flag, a ReadTxStatus frame
(opcode 0xF7) writes exactly one byte `b` whose low nibble is `0xF`, whose
bit 5 (SplitOff) is the negation of the split flag, whose bit 7 (PttOff) is the
negation of the transmit-active flag and whose bits 4 and 6 are 0; nothing else
changes.  With both flags set the byte is `0x0F`. -/
theorem C10_read_tx_status (u : Uninit5) (c0 c1 c2 c3 : Nat) (w : World) :
    ∃ b, processCatCommand u [c0, c1, c2, c3, 0xF7] w =
        some ([c0, c1, c2, c3, 0xF7], { w with serial := w.serial ++ [b] }) ∧
      b < 256 ∧
      b % 16 = 0xF ∧
      b.testBit 5 = !w.globalSettings.splitOn ∧
      b.testBit 7 = !w.globalSettings.txActive ∧
      b.testBit 4 = false ∧
      b.testBit 6 = false ∧
      (w.globalSettings.txActive = true → w.globalSettings.splitOn = true → b = 0x0F) := by
  refine ⟨_, processCatCommand_ReadTxStatus u c0 c1 c2 c3 w, ?_⟩
  cases w.globalSettings.splitOn <;> cases w.globalSettings.txActive <;> decide

/-- The ReadTxStatus frame of C10 on the sample radio state. -/
theorem C10_read_tx_status_witness :
    ∃ b, processCatCommand exampleUninit [0, 0, 0, 0, 0xF7] exampleWorld =
        some ([0, 0, 0, 0, 0xF7], { exampleWorld with serial := exampleWorld.serial ++ [b] }) ∧
      b < 256 ∧
      b % 16 = 0xF ∧
      b.testBit 5 = !exampleWorld.globalSettings.splitOn ∧
      b.testBit 7 = !exampleWorld.globalSettings.txActive ∧
      b.testBit 4 = false ∧
      b.testBit 6 = false ∧
      (exampleWorld.globalSettings.txActive = true →
        exampleWorld.globalSettings.splitOn = true → b = 0x0F) :=
  C10_read_tx_status exampleUninit 0 0 0 0 exampleWorld

/-- C11: for every frame whose opcode byte is none of 0x01, 0x02, 0x82, 0x03,
0x07, 0x08, 0x88, 0x81, 0xBB, 0xE7, 0xF7, for any parameter bytes and any radio
state, `processCatCommand` writes exactly the single byte `0x00`; the settings
are unchanged and no collaborator is called. -/
theorem C11_unknown_opcode (u : Uninit5) (c0 c1 c2 c3 c4 : Nat) (w : World)
    (h : c4 ∉ [0x01, 0x02, 0x82, 0x03, 0x07, 0x08, 0x88, 0x81, 0xBB, 0xE7, 0xF7]) :
    processCatCommand u [c0, c1, c2, c3, c4] w =
      some ([c0, c1, c2, c3, c4], { w with serial := w.serial ++ [0x00] }) := by
  simp only [List.mem_cons, List.mem_singleton, not_or, List.not_mem_nil, not_false_eq_true,
    and_true] at h
  obtain ⟨h01, h02, h82, h03, h07, h08, h88, h81, hBB, hE7, hF7⟩ := h
  exact processCatCommand_default u c0 c1 c2 c3 c4 w h01 h02 h82 h03 h07 h08 h88 h81 hBB hE7 hF7

/-- The unknown opcode 0x99 on the sample radio state. -/
theorem C11_unknown_opcode_witness :
    (0x99 : Nat) ∉ [0x01, 0x02, 0x82, 0x03, 0x07, 0x08, 0x88, 0x81, 0xBB, 0xE7, 0xF7] ∧
    processCatCommand exampleUninit [1, 2, 3, 4, 0x99] exampleWorld =
      some ([1, 2, 3, 4, 0x99], { exampleWorld with serial := exampleWorld.serial ++ [0x00] }) :=
  ⟨by decide, C11_unknown_opcode exampleUninit 1 2 3 4 0x99 exampleWorld (by decide)⟩

/-- C12: for every frame with opcode 0xBB and `P2 = 0x55` (any `P1`, `P3`, `P4`)
the reply is exactly the two bytes `[0x80 + v, 0x00]` with `v = 1` when the
active VFO is B and `v = 0` when it is A: bit 0 of the first byte reflects the
active VFO, bit 7 is set and every other bit is 0. -/
theorem C12_vfo_register (u : Uninit5) (c0 c2 c3 : Nat) (w : World) :
    ∃ b, processCatCommand u [c0, 0x55, c2, c3, 0xBB] w =
        some ([b, 0x00, c2, c3, 0xBB], { w with serial := w.serial ++ [b, 0x00] }) ∧
      b = 0x80 + (if w.globalSettings.activeVfo = Vfo_e.VFO_B then 1 else 0) ∧
      b.testBit 0 = decide (w.globalSettings.activeVfo = Vfo_e.VFO_B) ∧
      b.testBit 7 = true ∧
      (∀ i, i ≠ 0 → i ≠ 7 → b.testBit i = false) := by
  refine ⟨0x80 + (if Vfo_e.VFO_B = w.globalSettings.activeVfo then 1 else 0), ?_, ?_⟩
  · rw [processCatCommand_BB, catReadEEPRom_vfo]
  · cases w.globalSettings.activeVfo
    · exact ⟨by decide, by decide, by decide,
        fun i h0 h7 => testBit_flag_byte _ i (Or.inl (by decide)) h0 h7⟩
    · exact ⟨by decide, by decide, by decide,
        fun i h0 h7 => testBit_flag_byte _ i (Or.inr (by decide)) h0 h7⟩

/-- C13 fails on the code at one input: the register read `BB` with
sub-address `0x62` and a CW dit duration of 0 divides by zero and writes
nothing.  On every other 0xBB frame and radio state exactly two bytes are
written (and the buffer keeps its last three bytes), and they are
`[0x00, 0x00]` whenever `P2` is not a sub-address the table recognizes. -/
theorem C13_register_read_two_bytes :
    processCatCommand exampleUninit [0x00, 0x62, 0x00, 0x00, 0xBB]
        { exampleWorld with
          globalSettings := { exampleWorld.globalSettings with cwDitDurationMs := 0 } }
      = none ∧
    (∀ (u : Uninit5) (c0 c1 c2 c3 : Nat) (w : World),
      ¬ (c1 = 0x62 ∧ w.globalSettings.cwDitDurationMs = 0) →
      ∃ a b, processCatCommand u [c0, c1, c2, c3, 0xBB] w =
          some ([a, b, c2, c3, 0xBB], { w with serial := w.serial ++ [a, b] }) ∧
        (c1 ∉ [0x45, 0x47, 0x55, 0x57, 0x59, 0x5C, 0x5E, 0x5F, 0x60, 0x61, 0x62, 0x63, 0x64,
            0x67, 0x69, 0x78, 0x79, 0x7A, 0xB3] → a = 0x00 ∧ b = 0x00)) := by
  refine ⟨by decide, ?_⟩
  intro u c0 c1 c2 c3 w hok
  obtain ⟨a, b, h⟩ := catReadEEPRom_total c0 c1 c2 c3 0xBB w hok
  refine ⟨a, b, by rw [processCatCommand_BB, h], ?_⟩
  intro hun
  rw [catReadEEPRom_unrecognized c0 c1 c2 c3 0xBB w hun] at h
  simp only [Option.some.injEq, Prod.mk.injEq, List.cons.injEq, and_true, true_and] at h
  exact ⟨h.1.1.symm, h.1.2.symm⟩

/-- C14: for every `unsigned long` frequency `f` and every initial content of
the buffer, `writeFreq f` leaves byte `k` equal to `16 * d(8-2k) + d(7-2k)`,
where `d(i) = (f / 10^i) mod 10`: digits (8,7) fill byte 0 high/low, (6,5)
byte 1, (4,3) byte 2, (2,1) byte 3, digit 0 is dropped, every nibble is a
decimal digit and the bytes after the fourth (the CMD byte) are unchanged. -/
theorem C14_writeFreq_packing (f c0 c1 c2 c3 : Nat) (rest : List Nat) (h32 : f < 2 ^ 32) :
    ∃ b0 b1 b2 b3, writeFreq f (c0 :: c1 :: c2 :: c3 :: rest) =
        some (b0 :: b1 :: b2 :: b3 :: rest) ∧
      b0 = 16 * digitAt f 8 + digitAt f 7 ∧
      b1 = 16 * digitAt f 6 + digitAt f 5 ∧
      b2 = 16 * digitAt f 4 + digitAt f 3 ∧
      b3 = 16 * digitAt f 2 + digitAt f 1 ∧
      (getHighNibble b0 = digitAt f 8 ∧ getLowNibble b0 = digitAt f 7) ∧
      (getHighNibble b1 = digitAt f 6 ∧ getLowNibble b1 = digitAt f 5) ∧
      (getHighNibble b2 = digitAt f 4 ∧ getLowNibble b2 = digitAt f 3) ∧
      (getHighNibble b3 = digitAt f 2 ∧ getLowNibble b3 = digitAt f 1) ∧
      (∀ i, digitAt f i ≤ 9) := by
  have hm : f % 2 ^ 32 = f := Nat.mod_eq_of_lt h32
  have hlt : ∀ i, digitAt f i < 10 := digitAt_lt f
  have h1 := hlt 1; have h2 := hlt 2; have h3 := hlt 3; have h4 := hlt 4
  have h5 := hlt 5; have h6 := hlt 6; have h7 := hlt 7; have h8 := hlt 8
  refine ⟨_, _, _, _, by rw [writeFreq_eq, hm], by omega, by omega, by omega, by omega,
    ?_, ?_, ?_, ?_, fun i => Nat.le_of_lt_succ (hlt i)⟩ <;>
  · rw [getHighNibble_eq, getLowNibble_eq]
    constructor <;> omega

/-- The packing of C14 for 14,234,567 Hz over a buffer full of garbage. -/
theorem C14_writeFreq_packing_witness :
    14234567 < 2 ^ 32 ∧
    ∃ b0 b1 b2 b3, writeFreq 14234567 (0xAA :: 0xBB :: 0xCC :: 0xDD :: [0xEE]) =
        some (b0 :: b1 :: b2 :: b3 :: [0xEE]) ∧
      b0 = 16 * digitAt 14234567 8 + digitAt 14234567 7 ∧
      b1 = 16 * digitAt 14234567 6 + digitAt 14234567 5 ∧
      b2 = 16 * digitAt 14234567 4 + digitAt 14234567 3 ∧
      b3 = 16 * digitAt 14234567 2 + digitAt 14234567 1 ∧
      (getHighNibble b0 = digitAt 14234567 8 ∧ getLowNibble b0 = digitAt 14234567 7) ∧
      (getHighNibble b1 = digitAt 14234567 6 ∧ getLowNibble b1 = digitAt 14234567 5) ∧
      (getHighNibble b2 = digitAt 14234567 4 ∧ getLowNibble b2 = digitAt 14234567 3) ∧
      (getHighNibble b3 = digitAt 14234567 2 ∧ getLowNibble b3 = digitAt 14234567 1) ∧
      (∀ i, digitAt 14234567 i ≤ 9) :=
  ⟨by decide, C14_writeFreq_packing 14234567 0xAA 0xBB 0xCC 0xDD [0xEE] (by decide)⟩

/-- C15: for every `unsigned long` `n` and every `count` that fits the buffer,
`getDecimalDigits n result count` stores exactly the first `count` entries,
entry `i` being `(n / 10^i) mod 10`, and leaves the entries from `count` on
untouched; the stored digits sum up to `n mod 10^count` and entry `i` is 0
wherever `10^i > n`. -/
theorem C15_getDecimalDigits (n : Nat) (result : List Nat) (count : Nat)
    (h32 : n < 2 ^ 32) (hlen : count ≤ result.length) :
    ∃ out, getDecimalDigits n result (count : Int) = some out ∧
      out.length = result.length ∧
      (∀ i, i < count → out[i]? = some (n / 10 ^ i % 10)) ∧
      (∀ i, count ≤ i → out[i]? = result[i]?) ∧
      ((Finset.range count).sum fun i => out.getD i 0 * 10 ^ i) = n % 10 ^ count ∧
      (∀ i, i < count → n < 10 ^ i → out[i]? = some 0) := by
  have hm : n % 2 ^ 32 = n := Nat.mod_eq_of_lt h32
  obtain ⟨out, ho, hl, hd, hf⟩ := getDecimalDigitsLoop_spec count n result 0 (by omega)
  refine ⟨out, ?_, hl, ?_, ?_, ?_, ?_⟩
  · simp only [getDecimalDigits, hm, Int.toNat_ofNat, ho]
  · intro i hi
    have := hd i hi
    rwa [Nat.zero_add] at this
  · intro i hi
    exact hf i (Or.inr (by omega))
  · rw [← digit_sum_mod n count]
    apply Finset.sum_congr rfl
    intro i hi
    have h1 := hd i (Finset.mem_range.mp hi)
    rw [Nat.zero_add] at h1
    simp [List.getD, h1]
  · intro i hi hn
    have h1 := hd i hi
    rw [Nat.zero_add] at h1
    rw [h1, Nat.div_eq_of_lt hn]

/-- Five digits of 1234 written into a six-cell buffer: C15 at a concrete
input. -/
theorem C15_getDecimalDigits_witness :
    (1234 < 2 ^ 32 ∧ 5 ≤ [7, 7, 7, 7, 7, 7].length) ∧
    ∃ out, getDecimalDigits 1234 [7, 7, 7, 7, 7, 7] ((5 : Nat) : Int) = some out ∧
      out.length = [7, 7, 7, 7, 7, 7].length ∧
      (∀ i, i < 5 → out[i]? = some (1234 / 10 ^ i % 10)) ∧
      (∀ i, 5 ≤ i → out[i]? = [7, 7, 7, 7, 7, 7][i]?) ∧
      ((Finset.range 5).sum fun i => out.getD i 0 * 10 ^ i) = 1234 % 10 ^ 5 ∧
      (∀ i, i < 5 → 1234 < 10 ^ i → out[i]? = some 0) :=
  ⟨⟨by decide, by decide⟩,
    C15_getDecimalDigits 1234 [7, 7, 7, 7, 7, 7] 5 (by decide) (by decide)⟩

/-- C16: an OperatingMode frame (opcode 0x07) sets the mode of the active VFO to
LSB exactly when `P1` is `0x00` or `0x03` and to USB for every other `P1`,
changes nothing else in the settings, writes exactly the byte `0x00`, and calls
`setFrequency` with the unchanged active frequency, then `updateDisplay`; the
active frequency, the active VFO and the split flag are as before. -/
theorem C16_operating_mode (u : Uninit5) (p1 c1 c2 c3 : Nat) (w : World) :
    ∃ w', processCatCommand u [p1, c1, c2, c3, 0x07] w = some ([p1, c1, c2, c3, 0x07], w') ∧
      GetActiveVfoMode w'.globalSettings =
        (if p1 = 0x00 ∨ p1 = 0x03 then VfoMode_e.VFO_MODE_LSB else VfoMode_e.VFO_MODE_USB) ∧
      w'.globalSettings =
        SetActiveVfoMode
          (if p1 = 0x00 ∨ p1 = 0x03 then VfoMode_e.VFO_MODE_LSB else VfoMode_e.VFO_MODE_USB)
          w.globalSettings ∧
      w'.serial = w.serial ++ [0x00] ∧
      w'.calls = w.calls ++
        [Call.setFrequency (GetActiveVfoFreq w.globalSettings), Call.updateDisplay] ∧
      GetActiveVfoFreq w'.globalSettings = GetActiveVfoFreq w.globalSettings ∧
      w'.globalSettings.activeVfo = w.globalSettings.activeVfo ∧
      w'.globalSettings.splitOn = w.globalSettings.splitOn := by
  refine ⟨_, processCatCommand_OperatingMode u p1 c1 c2 c3 w, ?_⟩
  have ho := SetActiveVfoMode_other
    (if p1 = 0x00 ∨ p1 = 0x03 then VfoMode_e.VFO_MODE_LSB else VfoMode_e.VFO_MODE_USB)
    w.globalSettings
  rw [SetActiveVfoFreq_same, SetActiveVfoMode_freq]
  exact ⟨SetActiveVfoMode_mode _ _, rfl, rfl, rfl, rfl, ho.1, ho.2.1⟩

/-- C17: in every framer state reached from the initial state by any sequence
of `checkCAT` ticks, the receive buffer has 5 cells and the fill index is below
5, so the store of the next tick is in bounds; the same holds after any further
tick, and a tick that dispatches a frame ends with fill index 0 and
deadline 0. -/
theorem C17_fill_index_invariant (w : World) (ticks : List Tick) (r : RunResult)
    (h : runCAT CatState.init w ticks = some r) :
    r.state.rx_buffer.length = 5 ∧ r.state.current_index < 5 ∧
    (∀ byte, ∃ buf, storeAt r.state.rx_buffer r.state.current_index byte = some buf) ∧
    (∀ (w' : World) (t : Tick) (r' : TickResult), checkCAT r.state w' t = some r' →
      r'.state.rx_buffer.length = 5 ∧ r'.state.current_index < 5 ∧
      (r'.dispatched ≠ none → r'.state.current_index = 0 ∧ r'.state.timeout = 0)) := by
  obtain ⟨hl, hi⟩ := runCAT_invariant ticks CatState.init w r rfl (by decide) h
  refine ⟨hl, hi, ?_, ?_⟩
  · intro byte
    exact ⟨r.state.rx_buffer.set r.state.current_index (byte % 256),
      by simp only [storeAt, hl, hi, if_true]⟩
  · intro w' t r' hc
    exact checkCAT_invariant r.state w' t r' hl hi hc

/-- The invariant of C17 after five ticks that deliver an unknown-opcode frame
to the framer at program start. -/
theorem C17_fill_index_witness :
    runCAT CatState.init exampleWorld
        [⟨0, some 1, exampleUninit⟩, ⟨1, some 2, exampleUninit⟩, ⟨2, some 3, exampleUninit⟩,
         ⟨3, some 4, exampleUninit⟩, ⟨4, some 0x99, exampleUninit⟩] =
      some { state := { rx_buffer := [1, 2, 3, 4, 0x99], current_index := 0, timeout := 0 },
             world := { exampleWorld with serial := [0x00] },
             frames := [[1, 2, 3, 4, 0x99]] } ∧
    ([1, 2, 3, 4, 0x99].length = 5 ∧ 0 < 5 ∧
      (∀ byte, ∃ buf, storeAt [1, 2, 3, 4, 0x99] 0 byte = some buf) ∧
      (∀ (w' : World) (t : Tick) (r' : TickResult),
        checkCAT { rx_buffer := [1, 2, 3, 4, 0x99], current_index := 0, timeout := 0 } w' t
          = some r' →
        r'.state.rx_buffer.length = 5 ∧ r'.state.current_index < 5 ∧
        (r'.dispatched ≠ none → r'.state.current_index = 0 ∧ r'.state.timeout = 0))) :=
  ⟨by decide,
    C17_fill_index_invariant exampleWorld
      [⟨0, some 1, exampleUninit⟩, ⟨1, some 2, exampleUninit⟩, ⟨2, some 3, exampleUninit⟩,
       ⟨3, some 4, exampleUninit⟩, ⟨4, some 0x99, exampleUninit⟩]
      { state := { rx_buffer := [1, 2, 3, 4, 0x99], current_index := 0, timeout := 0 },
        world := { exampleWorld with serial := [0x00] },
        frames := [[1, 2, 3, 4, 0x99]] }
      (by decide)⟩

/-- C18: for every 4 bytes whose eight nibbles are decimal digits and every
initial content of the output buffer, `writeFreq (readFreq b)` reproduces
exactly the 4 bytes `b`. -/
theorem C18_write_after_read (b0 b1 b2 b3 c0 c1 c2 c3 : Nat) (rest rest' : List Nat)
    (hb : b0 < 256 ∧ b1 < 256 ∧ b2 < 256 ∧ b3 < 256)
    (hn : (getHighNibble b0 ≤ 9 ∧ getLowNibble b0 ≤ 9) ∧
      (getHighNibble b1 ≤ 9 ∧ getLowNibble b1 ≤ 9) ∧
      (getHighNibble b2 ≤ 9 ∧ getLowNibble b2 ≤ 9) ∧
      (getHighNibble b3 ≤ 9 ∧ getLowNibble b3 ≤ 9)) :
    (readFreq (b0 :: b1 :: b2 :: b3 :: rest)).bind
        (fun f => writeFreq f (c0 :: c1 :: c2 :: c3 :: rest')) =
      some (b0 :: b1 :: b2 :: b3 :: rest') := by
  have k : ∀ b, b < 256 → b % 256 / 16 * 16 + b % 16 = b := fun b hlt => by omega
  have k0 := k b0 hb.1
  have k1 := k b1 hb.2.1
  have k2 := k b2 hb.2.2.1
  have k3 := k b3 hb.2.2.2
  simp only [getHighNibble_eq, getLowNibble_eq] at hn
  obtain ⟨hm, ⟨d8, d7⟩, ⟨d6, d5⟩, ⟨d4, d3⟩, ⟨d2, d1⟩⟩ :=
    digits_of_bcd _ _ _ _ _ _ _ _ _ hn rfl
  rw [readFreq_eq, Option.some_bind, writeFreq_eq, hm, d8, d7, d6, d5, d4, d3, d2, d1,
    k0, k1, k2, k3]

/-- The bytes `01 42 34 56` decoded and encoded again over a buffer full of
garbage: C18 at a concrete input. -/
theorem C18_write_after_read_witness :
    ((0x01 < 256 ∧ 0x42 < 256 ∧ 0x34 < 256 ∧ 0x56 < 256) ∧
      ((getHighNibble 0x01 ≤ 9 ∧ getLowNibble 0x01 ≤ 9) ∧
        (getHighNibble 0x42 ≤ 9 ∧ getLowNibble 0x42 ≤ 9) ∧
        (getHighNibble 0x34 ≤ 9 ∧ getLowNibble 0x34 ≤ 9) ∧
        (getHighNibble 0x56 ≤ 9 ∧ getLowNibble 0x56 ≤ 9))) ∧
    (readFreq (0x01 :: 0x42 :: 0x34 :: 0x56 :: [0x01])).bind
        (fun f => writeFreq f (0xAA :: 0xBB :: 0xCC :: 0xDD :: [0xEE])) =
      some (0x01 :: 0x42 :: 0x34 :: 0x56 :: [0xEE]) :=
  ⟨⟨by decide, by decide⟩,
    C18_write_after_read 0x01 0x42 0x34 0x56 0xAA 0xBB 0xCC 0xDD [0x01] [0xEE]
      (by decide) (by decide)⟩

/-- C19: for every 4 input bytes, decimal nibbles or not, the 32-bit loop of
`readFreq` yields after each iteration the exact partial sum
`ret * 100 + (10 * high + low)` and `readFreq` returns exactly
`10 * sum of (10 * high(b_k) + low(b_k)) * 100^(3-k)`: nothing wraps, the
largest value is at most 1,666,666,650, which is below `2^32`, and the result
is a multiple of 10. -/
theorem C19_readFreq_no_overflow (b0 b1 b2 b3 : Nat) (rest : List Nat) :
    readFreqLoop (b0 :: b1 :: b2 :: b3 :: rest) 0 0 1 = some (bcdPair b0) ∧
    readFreqLoop (b0 :: b1 :: b2 :: b3 :: rest) 0 0 2 = some (bcdPair b0 * 100 + bcdPair b1) ∧
    readFreqLoop (b0 :: b1 :: b2 :: b3 :: rest) 0 0 3 =
      some ((bcdPair b0 * 100 + bcdPair b1) * 100 + bcdPair b2) ∧
    readFreqLoop (b0 :: b1 :: b2 :: b3 :: rest) 0 0 4 =
      some (((bcdPair b0 * 100 + bcdPair b1) * 100 + bcdPair b2) * 100 + bcdPair b3) ∧
    readFreq (b0 :: b1 :: b2 :: b3 :: rest) =
      some (10 * (bcdPair b0 * 100 ^ 3 + bcdPair b1 * 100 ^ 2 + bcdPair b2 * 100 ^ 1
        + bcdPair b3 * 100 ^ 0)) ∧
    ((((bcdPair b0 * 100 + bcdPair b1) * 100 + bcdPair b2) * 100 + bcdPair b3) * 10
      ≤ 1666666650) ∧
    10 * (bcdPair b0 * 100 ^ 3 + bcdPair b1 * 100 ^ 2 + bcdPair b2 * 100 ^ 1
        + bcdPair b3 * 100 ^ 0) ≤ 1666666650 ∧
    1666666650 < 2 ^ 32 ∧
    10 * (bcdPair b0 * 100 ^ 3 + bcdPair b1 * 100 ^ 2 + bcdPair b2 * 100 ^ 1
        + bcdPair b3 * 100 ^ 0) % 10 = 0 := by
  have h0 := bcdPair_le b0
  have h1 := bcdPair_le b1
  have h2 := bcdPair_le b2
  have h3 := bcdPair_le b3
  have e0 : 10 * getHighNibble b0 + getLowNibble b0 = bcdPair b0 := rfl
  have e1 : 10 * getHighNibble b1 + getLowNibble b1 = bcdPair b1 := rfl
  have e2 : 10 * getHighNibble b2 + getLowNibble b2 = bcdPair b2 := rfl
  have e3 : 10 * getHighNibble b3 + getLowNibble b3 = bcdPair b3 := rfl
  refine ⟨?_, ?_, ?_, ?_, ?_, by omega, by omega, by decide, by omega⟩
  all_goals
    simp only [readFreq, readFreqLoop, loadAt, List.getElem?_cons_succ,
      List.getElem?_cons_zero, Option.bind, Option.map, e0, e1, e2, e3, Option.some.injEq]
    omega

/-- C20: for every radio state and all parameter bytes, a frame with opcode
0x03, 0xE7, 0xF7 or 0xBB leaves the settings unchanged and calls no
collaborator (neither `startTx`, `stopTx` nor `setFrequency`): this holds for
every result the dispatcher produces, and it produces one on every such frame
except the faulting register read of C7. -/
theorem C20_queries_read_only (u : Uninit5) (c0 c1 c2 c3 op : Nat) (w : World)
    (hop : op = 0x03 ∨ op = 0xE7 ∨ op = 0xF7 ∨ op = 0xBB) :
    (∀ cmd' w', processCatCommand u [c0, c1, c2, c3, op] w = some (cmd', w') →
      w'.globalSettings = w.globalSettings ∧ w'.calls = w.calls) ∧
    (¬ (op = 0xBB ∧ c1 = 0x62 ∧ w.globalSettings.cwDitDurationMs = 0) →
      ∃ cmd' w', processCatCommand u [c0, c1, c2, c3, op] w = some (cmd', w') ∧
        w'.globalSettings = w.globalSettings ∧ w'.calls = w.calls) := by
  have key : ¬ (op = 0xBB ∧ c1 = 0x62 ∧ w.globalSettings.cwDitDurationMs = 0) →
      ∃ cmd' w', processCatCommand u [c0, c1, c2, c3, op] w = some (cmd', w') ∧
        w'.globalSettings = w.globalSettings ∧ w'.calls = w.calls := by
    intro hok
    rcases hop with h | h | h | h <;> subst h
    · rw [processCatCommand_ReadFreqAndMode, writeFreq_eq]
      exact ⟨_, _, rfl, rfl, rfl⟩
    · exact ⟨_, _, processCatCommand_ReadRxStatus u c0 c1 c2 c3 w, rfl, rfl⟩
    · exact ⟨_, _, processCatCommand_ReadTxStatus u c0 c1 c2 c3 w, rfl, rfl⟩
    · obtain ⟨a, b, h⟩ := catReadEEPRom_total c0 c1 c2 c3 0xBB w (fun hh => hok ⟨rfl, hh⟩)
      rw [processCatCommand_BB, h]
      exact ⟨_, _, rfl, rfl, rfl⟩
  refine ⟨?_, key⟩
  intro cmd' w' hr
  by_cases hok : op = 0xBB ∧ c1 = 0x62 ∧ w.globalSettings.cwDitDurationMs = 0
  · obtain ⟨h1, h2, h3⟩ := hok
    subst h1 h2
    rw [processCatCommand_fault u c0 c2 c3 w h3] at hr
    exact absurd hr (by simp)
  · obtain ⟨cmd'', w'', h, hs, hc⟩ := key hok
    rw [h] at hr
    simp only [Option.some.injEq, Prod.mk.injEq] at hr
    rw [← hr.2]
    exact ⟨hs, hc⟩

/-- A ReadTxStatus frame on the sample radio state: C20 at a concrete input. -/
theorem C20_queries_read_only_witness :
    ((0xF7 : Nat) = 0x03 ∨ (0xF7 : Nat) = 0xE7 ∨ (0xF7 : Nat) = 0xF7 ∨ (0xF7 : Nat) = 0xBB) ∧
    ((∀ cmd' w', processCatCommand exampleUninit [1, 2, 3, 4, 0xF7] exampleWorld
          = some (cmd', w') →
        w'.globalSettings = exampleWorld.globalSettings ∧ w'.calls = exampleWorld.calls) ∧
      (¬ ((0xF7 : Nat) = 0xBB ∧ (2 : Nat) = 0x62 ∧
          exampleWorld.globalSettings.cwDitDurationMs = 0) →
        ∃ cmd' w', processCatCommand exampleUninit [1, 2, 3, 4, 0xF7] exampleWorld
            = some (cmd', w') ∧
          w'.globalSettings = exampleWorld.globalSettings ∧ w'.calls = exampleWorld.calls)) :=
  ⟨by decide, C20_queries_read_only exampleUninit 1 2 3 4 0xF7 exampleWorld (by decide)⟩

end UbitxCat
